import Mathlib

/-! The x-ui command-line entry point (`main.go`).

A shallow embedding of the process supervisor `runWebServer` and of the one-shot
administrative operations `updateTgbotSetting`, `updateSetting`, `updateCert` and
`getPanelURI`.

The packages `web`, `sub`, `database`, `service`, `global`, `logger` and the operating
system are external to `main.go`.  They are represented by a record of state-passing
operations over an arbitrary state type `σ`, so every result below holds for every
behaviour of those collaborators.  What `main.go` itself does (the order of the calls,
the branches taken on their results, what is printed) is recorded as a trace of events.
-/

namespace XUI

/-! ## Data model -/

/-- A Go `error`, represented by its message; `none` is `nil`. -/
abbrev GoError := Option String

/-- The two server kinds: `*web.Server` (panel) and `*sub.Server` (subscription). -/
inductive Kind where
  | panel
  | subscription
deriving DecidableEq, Repr

/-- A server handle: the pointer returned by `web.NewServer()` / `sub.NewServer()`.
Every call allocates a new server, so the handle is identified by its kind and by the
number of servers of that kind constructed before it. -/
structure Handle where
  kind : Kind
  id : Nat
deriving DecidableEq, Repr

/-- An `os.Signal` value read from `sigCh`. -/
inductive Signal where
  | SIGHUP
  | SIGTERM
  | other (n : Nat)
deriving DecidableEq, Repr

/-- The value of `config.GetLogLevel()`: one of the four levels `runWebServer` knows, or
any other value. -/
inductive LogLevel where
  | Debug
  | Info
  | Warn
  | Error
  | unknown (name : String)
deriving DecidableEq, Repr

/-- What `runWebServer` does, in program order. -/
inductive Event where
  /-- The banner `log.Printf("%v %v", config.GetName(), config.GetVersion())`. -/
  | logPrintf
  /-- The call `logger.InitLogger(level)`. -/
  | initLogger (level : LogLevel)
  /-- The call `log.Fatal(args)`, which logs and exits the process. -/
  | logFatal (msg : String)
  /-- The call `database.InitDB(config.GetDBPath())` and its result. -/
  | initDB (err : GoError)
  /-- The call `web.NewServer()` or `sub.NewServer()` and the handle it returned. -/
  | newServer (h : Handle)
  /-- The call `global.SetWebServer(server)`. -/
  | setWebServer (h : Handle)
  /-- The call `global.SetSubServer(subServer)`. -/
  | setSubServer (h : Handle)
  /-- The call `h.Start()` and its result. -/
  | start (h : Handle) (err : GoError)
  /-- The call `h.Stop()` and its result. -/
  | stop (h : Handle) (err : GoError)
  /-- The receive `sig := <-sigCh`. -/
  | recv (sig : Signal)
  /-- The call `logger.Warning("stop server err:", err)`. -/
  | warning (err : String)
  /-- The call `log.Println(err)`. -/
  | logPrintln (err : String)
deriving DecidableEq, Repr

/-- How a run of `runWebServer` ends. -/
inductive Exit where
  /-- The function returned. -/
  | returned
  /-- The process was ended by `log.Fatal`. -/
  | fatal
  /-- The function is blocked on `<-sigCh` with no signal pending. -/
  | waiting
deriving DecidableEq, Repr

/-- The collaborators of `runWebServer`, as operations on an external state `σ`. -/
structure Servers (σ : Type) where
  /-- The value of `config.GetLogLevel()`. -/
  getLogLevel : LogLevel
  /-- The function `database.InitDB(config.GetDBPath())`. -/
  initDB : σ → GoError × σ
  /-- The method `Start()` of a server of either kind. -/
  start : Handle → σ → GoError × σ
  /-- The method `Stop()` of a server of either kind. -/
  stop : Handle → σ → GoError × σ

/-- The result of a run: how it ended, the external state, and the trace. -/
structure Run (σ : Type) where
  exit : Exit
  state : σ
  trace : List Event

/-- What the body of one `switch` case leaves behind: the events it issued, the external
state, and either the handles now held in `server` / `subServer` (the loop goes on) or
`none` (the function returned). -/
structure Branch (σ : Type) where
  trace : List Event
  state : σ
  next : Option (Nat × Nat)

/-! ## `runWebServer` -/

/-- The `if err != nil { logger.Warning("stop server err:", err) }` after a `Stop`. -/
def warnStop : GoError → List Event
  | none => []
  | some e => [Event.warning e]

/-- The body of `case syscall.SIGHUP:` (lines 77-101), entered with the handles
`server = ⟨panel, server⟩` and `subServer = ⟨subscription, subServer⟩`. -/
def caseSIGHUP {σ : Type} (W : Servers σ) (server subServer : Nat) (s : σ) : Branch σ :=
  let r1 := W.stop ⟨Kind.panel, server⟩ s
  let r2 := W.stop ⟨Kind.subscription, subServer⟩ r1.2
  let server' := server + 1
  let r3 := W.start ⟨Kind.panel, server'⟩ r2.2
  let t1 : List Event :=
    [Event.stop ⟨Kind.panel, server⟩ r1.1] ++ warnStop r1.1 ++
    [Event.stop ⟨Kind.subscription, subServer⟩ r2.1] ++ warnStop r2.1 ++
    [Event.newServer ⟨Kind.panel, server'⟩, Event.setWebServer ⟨Kind.panel, server'⟩,
     Event.start ⟨Kind.panel, server'⟩ r3.1]
  match r3.1 with
  | some e => ⟨t1 ++ [Event.logPrintln e], r3.2, none⟩
  | none =>
    let subServer' := subServer + 1
    let r4 := W.start ⟨Kind.subscription, subServer'⟩ r3.2
    let t2 : List Event :=
      t1 ++ [Event.newServer ⟨Kind.subscription, subServer'⟩,
             Event.setSubServer ⟨Kind.subscription, subServer'⟩,
             Event.start ⟨Kind.subscription, subServer'⟩ r4.1]
    match r4.1 with
    | some e => ⟨t2 ++ [Event.logPrintln e], r4.2, none⟩
    | none => ⟨t2, r4.2, some (server', subServer')⟩

/-- The body of `default:` (lines 103-105): both results of `Stop` are discarded. -/
def caseDefault {σ : Type} (W : Servers σ) (server subServer : Nat) (s : σ) : Branch σ :=
  let r1 := W.stop ⟨Kind.panel, server⟩ s
  let r2 := W.stop ⟨Kind.subscription, subServer⟩ r1.2
  ⟨[Event.stop ⟨Kind.panel, server⟩ r1.1, Event.stop ⟨Kind.subscription, subServer⟩ r2.1],
   r2.2, none⟩

/-- The `switch sig` of line 75. -/
def switchSig {σ : Type} (W : Servers σ) (sig : Signal) (server subServer : Nat) (s : σ) :
    Branch σ :=
  match sig with
  | Signal.SIGHUP => caseSIGHUP W server subServer s
  | _ => caseDefault W server subServer s

/-- The `for` loop of lines 72-107, run on the signals that arrive on `sigCh`, in order.
When no signal is left the loop is blocked on the receive. -/
def signalLoop {σ : Type} (W : Servers σ) : Nat → Nat → σ → List Signal → Run σ
  | _, _, s, [] => ⟨Exit.waiting, s, []⟩
  | server, subServer, s, sig :: sigs =>
    let b := switchSig W sig server subServer s
    match b.next with
    | none => ⟨Exit.returned, b.state, Event.recv sig :: b.trace⟩
    | some (server', subServer') =>
      let r := signalLoop W server' subServer' b.state sigs
      ⟨r.exit, r.state, Event.recv sig :: b.trace ++ r.trace⟩

/-- The `switch config.GetLogLevel()` of lines 31-42: the logger call, or `none` for the
`default:` case. -/
def initLogLevel : LogLevel → Option Event
  | LogLevel.unknown _ => none
  | l => some (Event.initLogger l)

/-- The function `runWebServer` (lines 28-108), run on the signals that arrive on `sigCh`. -/
def runWebServer {σ : Type} (W : Servers σ) (s : σ) (sigs : List Signal) : Run σ :=
  match initLogLevel W.getLogLevel with
  | none => ⟨Exit.fatal, s, [Event.logPrintf, Event.logFatal "unknown log level:"]⟩
  | some lg =>
    let r0 := W.initDB s
    match r0.1 with
    | some e =>
      ⟨Exit.fatal, r0.2, [Event.logPrintf, lg, Event.initDB (some e), Event.logFatal e]⟩
    | none =>
      let r1 := W.start ⟨Kind.panel, 0⟩ r0.2
      let t1 : List Event :=
        [Event.logPrintf, lg, Event.initDB none, Event.newServer ⟨Kind.panel, 0⟩,
         Event.setWebServer ⟨Kind.panel, 0⟩, Event.start ⟨Kind.panel, 0⟩ r1.1]
      match r1.1 with
      | some e => ⟨Exit.returned, r1.2, t1 ++ [Event.logPrintln e]⟩
      | none =>
        let r2 := W.start ⟨Kind.subscription, 0⟩ r1.2
        let t2 : List Event :=
          t1 ++ [Event.newServer ⟨Kind.subscription, 0⟩,
                 Event.setSubServer ⟨Kind.subscription, 0⟩,
                 Event.start ⟨Kind.subscription, 0⟩ r2.1]
        match r2.1 with
        | some e => ⟨Exit.returned, r2.2, t2 ++ [Event.logPrintln e]⟩
        | none =>
          let r := signalLoop W 0 0 r2.2 sigs
          ⟨r.exit, r.state, t2 ++ r.trace⟩

/-! ## Administrative operations -/

/-- What an administrative operation does, in program order: its calls into the
`database`, `service`, `net` and `http` packages, and what it writes. -/
inductive AdminEvent where
  /-- The call `database.InitDB(config.GetDBPath())`. -/
  | initDB
  /-- The call `settingService.SetTgBotToken(v)`. -/
  | setTgBotToken (v : String)
  /-- The call `settingService.SetTgbotRuntime(v)`. -/
  | setTgbotRuntime (v : String)
  /-- The call `settingService.SetTgBotChatId(v)`. -/
  | setTgBotChatId (v : String)
  /-- The call `settingService.SetPort(port)`. -/
  | setPort (port : Int)
  /-- The call `userService.UpdateFirstUser(username, password)`. -/
  | updateFirstUser (username password : String)
  /-- The call `settingService.SetBasePath(v)`. -/
  | setBasePath (v : String)
  /-- The call `settingService.SetCertFile(v)`. -/
  | setCertFile (v : String)
  /-- The call `settingService.SetKeyFile(v)`. -/
  | setKeyFile (v : String)
  /-- The call `settingService.GetPort()`. -/
  | getPort
  /-- The call `settingService.GetBasePath()`. -/
  | getBasePath
  /-- The call `settingService.GetListen()`. -/
  | getListen
  /-- The call `settingService.GetWebDomain()`. -/
  | getWebDomain
  /-- The call `settingService.GetKeyFile()`. -/
  | getKeyFile
  /-- The call `settingService.GetCertFile()`. -/
  | getCertFile
  /-- The call `net.Interfaces()`. -/
  | netInterfaces
  /-- The call `http.Get(url)`. -/
  | httpGet (url : String)
  /-- Text written to standard output by `fmt.Println` or `fmt.Printf`. -/
  | stdout (text : String)
  /-- The call `logger.Info(msg)` or `logger.Infof(...)` with the formatted message. -/
  | loggerInfo (msg : String)
deriving DecidableEq, Repr

/-- The type `net.InterfaceStat`, with the two fields `getPanelURI` reads; an address is
the `Addr` string of a `net.InterfaceAddr`. -/
structure InterfaceStat where
  Flags : List String
  Addrs : List String
deriving DecidableEq, Repr

/-- The collaborators of the administrative operations, as operations on an external
state `σ` (the database, the network).  A getter returns its value; its `error` result is
discarded by every caller in `getPanelURI`. -/
structure Services (σ : Type) where
  /-- The function `database.InitDB(config.GetDBPath())`. -/
  initDB : σ → GoError × σ
  /-- The method `SettingService.SetTgBotToken`. -/
  setTgBotToken : String → σ → GoError × σ
  /-- The method `SettingService.SetTgbotRuntime`. -/
  setTgbotRuntime : String → σ → GoError × σ
  /-- The method `SettingService.SetTgBotChatId`. -/
  setTgBotChatId : String → σ → GoError × σ
  /-- The method `SettingService.SetPort`. -/
  setPort : Int → σ → GoError × σ
  /-- The method `UserService.UpdateFirstUser`. -/
  updateFirstUser : String → String → σ → GoError × σ
  /-- The method `SettingService.SetBasePath`. -/
  setBasePath : String → σ → GoError × σ
  /-- The method `SettingService.SetCertFile`. -/
  setCertFile : String → σ → GoError × σ
  /-- The method `SettingService.SetKeyFile`. -/
  setKeyFile : String → σ → GoError × σ
  /-- The method `SettingService.GetPort`. -/
  getPort : σ → Int × σ
  /-- The method `SettingService.GetBasePath`. -/
  getBasePath : σ → String × σ
  /-- The method `SettingService.GetListen`. -/
  getListen : σ → String × σ
  /-- The method `SettingService.GetWebDomain`. -/
  getWebDomain : σ → String × σ
  /-- The method `SettingService.GetKeyFile`. -/
  getKeyFile : σ → String × σ
  /-- The method `SettingService.GetCertFile`. -/
  getCertFile : σ → String × σ
  /-- The function `net.Interfaces`; its `error` result is discarded. -/
  netInterfaces : σ → List InterfaceStat × σ
  /-- The function `http.Get` followed by `io.ReadAll(resp.Body)`: `none` when `Get`
  fails, `some none` when `ReadAll` fails, else the body. -/
  httpGet : String → σ → Option (Option String) × σ

/-- How an administrative operation ends. -/
inductive AdminExit where
  /-- The function returned. -/
  | returned
  /-- A run-time panic (slice bounds out of range). -/
  | panicked
deriving DecidableEq, Repr

/-- The result of an administrative operation. -/
structure AdminRun (σ : Type) where
  state : σ
  trace : List AdminEvent
  exit : AdminExit := AdminExit.returned

/-- The call `fmt.Println(text)`: the text and a newline. -/
def println (text : String) : AdminEvent := AdminEvent.stdout (text ++ "\n")

/-! ### `updateTgbotSetting` -/

/-- Lines 211-220 of `updateTgbotSetting`: the chat id. -/
def tgbotSettingChatId {σ : Type} (W : Services σ) (tgBotChatid : String) (s : σ) :
    AdminRun σ :=
  if tgBotChatid ≠ "" then
    let r := W.setTgBotChatId tgBotChatid s
    match r.1 with
    | some e => ⟨r.2, [AdminEvent.setTgBotChatId tgBotChatid, println e], AdminExit.returned⟩
    | none =>
      ⟨r.2, [AdminEvent.setTgBotChatId tgBotChatid,
             AdminEvent.loggerInfo "updateTgbotSetting tgBotChatid success"],
       AdminExit.returned⟩
  else ⟨s, [], AdminExit.returned⟩

/-- Lines 201-220 of `updateTgbotSetting`: the runtime, then the chat id. -/
def tgbotSettingRuntime {σ : Type} (W : Services σ) (tgBotChatid tgBotRuntime : String)
    (s : σ) : AdminRun σ :=
  if tgBotRuntime ≠ "" then
    let r := W.setTgbotRuntime tgBotRuntime s
    match r.1 with
    | some e =>
      ⟨r.2, [AdminEvent.setTgbotRuntime tgBotRuntime, println e], AdminExit.returned⟩
    | none =>
      let k := tgbotSettingChatId W tgBotChatid r.2
      ⟨k.state,
       [AdminEvent.setTgbotRuntime tgBotRuntime,
        AdminEvent.loggerInfo
          ("updateTgbotSetting tgBotRuntime[" ++ tgBotRuntime ++ "] success")] ++ k.trace,
       AdminExit.returned⟩
  else tgbotSettingChatId W tgBotChatid s

/-- Lines 191-220 of `updateTgbotSetting`: the token, then the runtime, then the chat
id. -/
def tgbotSettingToken {σ : Type} (W : Services σ)
    (tgBotToken tgBotChatid tgBotRuntime : String) (s : σ) : AdminRun σ :=
  if tgBotToken ≠ "" then
    let r := W.setTgBotToken tgBotToken s
    match r.1 with
    | some e => ⟨r.2, [AdminEvent.setTgBotToken tgBotToken, println e], AdminExit.returned⟩
    | none =>
      let k := tgbotSettingRuntime W tgBotChatid tgBotRuntime r.2
      ⟨k.state,
       [AdminEvent.setTgBotToken tgBotToken,
        AdminEvent.loggerInfo "updateTgbotSetting tgBotToken success"] ++ k.trace,
       AdminExit.returned⟩
  else tgbotSettingRuntime W tgBotChatid tgBotRuntime s

/-- The function `updateTgbotSetting` (lines 182-220). -/
def updateTgbotSetting {σ : Type} (W : Services σ)
    (tgBotToken tgBotChatid tgBotRuntime : String) (s : σ) : AdminRun σ :=
  let r0 := W.initDB s
  match r0.1 with
  | some e => ⟨r0.2, [AdminEvent.initDB, println e], AdminExit.returned⟩
  | none =>
    let k := tgbotSettingToken W tgBotToken tgBotChatid tgBotRuntime r0.2
    ⟨k.state, AdminEvent.initDB :: k.trace, AdminExit.returned⟩

/-! ### `updateSetting` -/

/-- Lines 232-239 of `updateSetting`: the port. -/
def settingPort {σ : Type} (W : Services σ) (port : Int) (s : σ) : AdminRun σ :=
  if port > 0 then
    let r := W.setPort port s
    match r.1 with
    | some e =>
      ⟨r.2, [AdminEvent.setPort port, println ("Failed to set port: " ++ e)],
       AdminExit.returned⟩
    | none =>
      ⟨r.2, [AdminEvent.setPort port,
             AdminEvent.stdout ("Port set successfully: " ++ toString port ++ "\n")],
       AdminExit.returned⟩
  else ⟨s, [], AdminExit.returned⟩

/-- Lines 241-248 of `updateSetting`: the user name and password. -/
def settingUser {σ : Type} (W : Services σ) (username password : String) (s : σ) :
    AdminRun σ :=
  if username ≠ "" ∨ password ≠ "" then
    let r := W.updateFirstUser username password s
    match r.1 with
    | some e =>
      ⟨r.2, [AdminEvent.updateFirstUser username password,
             println ("Failed to update username and password: " ++ e)],
       AdminExit.returned⟩
    | none =>
      ⟨r.2, [AdminEvent.updateFirstUser username password,
             println "Username and password updated successfully"],
       AdminExit.returned⟩
  else ⟨s, [], AdminExit.returned⟩

/-- Lines 250-257 of `updateSetting`: the base path. -/
def settingBasePath {σ : Type} (W : Services σ) (webBasePath : String) (s : σ) :
    AdminRun σ :=
  if webBasePath ≠ "" then
    let r := W.setBasePath webBasePath s
    match r.1 with
    | some e =>
      ⟨r.2, [AdminEvent.setBasePath webBasePath,
             println ("Failed to set base URI path: " ++ e)],
       AdminExit.returned⟩
    | none =>
      ⟨r.2, [AdminEvent.setBasePath webBasePath, println "Base URI path set successfully"],
       AdminExit.returned⟩
  else ⟨s, [], AdminExit.returned⟩

/-- The function `updateSetting` (lines 222-258). -/
def updateSetting {σ : Type} (W : Services σ) (port : Int)
    (username password webBasePath : String) (s : σ) : AdminRun σ :=
  let r0 := W.initDB s
  match r0.1 with
  | some e =>
    ⟨r0.2, [AdminEvent.initDB, println ("Database initialization failed: " ++ e)],
     AdminExit.returned⟩
  | none =>
    let a := settingPort W port r0.2
    let b := settingUser W username password a.state
    let c := settingBasePath W webBasePath b.state
    ⟨c.state, AdminEvent.initDB :: (a.trace ++ b.trace ++ c.trace), AdminExit.returned⟩

/-! ### `updateCert` -/

/-- The function `updateCert` (lines 260-285). -/
def updateCert {σ : Type} (W : Services σ) (publicKey privateKey : String) (s : σ) :
    AdminRun σ :=
  let r0 := W.initDB s
  match r0.1 with
  | some e => ⟨r0.2, [AdminEvent.initDB, println e], AdminExit.returned⟩
  | none =>
    if (privateKey ≠ "" ∧ publicKey ≠ "") ∨ (privateKey = "" ∧ publicKey = "") then
      let r1 := W.setCertFile publicKey r0.2
      let m1 :=
        match r1.1 with
        | some e => println ("set certificate public key failed: " ++ e)
        | none => println "set certificate public key success"
      let r2 := W.setKeyFile privateKey r1.2
      let m2 :=
        match r2.1 with
        | some e => println ("set certificate private key failed: " ++ e)
        | none => println "set certificate private key success"
      ⟨r2.2, [AdminEvent.initDB, AdminEvent.setCertFile publicKey, m1,
              AdminEvent.setKeyFile privateKey, m2], AdminExit.returned⟩
    else
      ⟨r0.2, [AdminEvent.initDB, println "both public and private key should be entered."],
       AdminExit.returned⟩

/-! ### `getPanelURI` -/

/-- The six settings read at lines 296-301. -/
structure PanelSettings where
  Port : Int
  BasePath : String
  Listen : String
  Domain : String
  KeyFile : String
  CertFile : String
deriving DecidableEq, Repr

/-- Lines 296-301 of `getPanelURI`: the six reads, in order. -/
def readPanelSettings {σ : Type} (W : Services σ) (s : σ) : PanelSettings × σ :=
  let r1 := W.getPort s
  let r2 := W.getBasePath r1.2
  let r3 := W.getListen r2.2
  let r4 := W.getWebDomain r3.2
  let r5 := W.getKeyFile r4.2
  let r6 := W.getCertFile r5.2
  (⟨r1.1, r2.1, r3.1, r4.1, r5.1, r6.1⟩, r6.2)

/-- The events of the six reads of lines 296-301. -/
def panelReads : List AdminEvent :=
  [AdminEvent.getPort, AdminEvent.getBasePath, AdminEvent.getListen,
   AdminEvent.getWebDomain, AdminEvent.getKeyFile, AdminEvent.getCertFile]

/-- The variable `TLS` (lines 303-306). -/
def panelTLS (KeyFile CertFile : String) : Bool :=
  if KeyFile ≠ "" ∧ CertFile ≠ "" then true else false

/-- The variable `Proto` (lines 308-313). -/
def panelProto (TLS : Bool) : String :=
  if TLS then "https://" else "http://"

/-- The variable `PortText` (lines 315-318); `fmt.Sprintf(":%d", Port)` is a colon and
the decimal numeral of `Port`. -/
def panelPortText (Port : Int) (TLS : Bool) : String :=
  if (Port = 443 ∧ TLS = true) ∨ (Port = 80 ∧ TLS = false) then ""
  else ":" ++ toString Port

/-- The test `len(Flags) > 2 && Flags[0] == "up" && Flags[1] != "loopback"` of line
335. -/
def upNotLoopback (iface : InterfaceStat) : Bool :=
  match iface.Flags with
  | f0 :: f1 :: _ :: _ => f0 = "up" ∧ f1 ≠ "loopback"
  | _ => false

/-- The body of the inner loop (lines 338-343) for one address: what it prints, or `none`
when `address.Addr[0:6]` is out of range. -/
def printAddress (Proto PortText BasePath Addr : String) : Option (List AdminEvent) :=
  let IP := (Addr.splitOn "/").headD ""
  if Addr.contains '.' then
    some [println (Proto ++ IP ++ PortText ++ BasePath)]
  else if Addr.utf8ByteSize < 6 then none
  else if ¬ ("fe80::".isPrefixOf Addr) then
    some [println (Proto ++ "[" ++ IP ++ "]" ++ PortText ++ BasePath)]
  else some []

/-- The inner loop of lines 337-344 over the addresses of one interface. -/
def printAddresses (Proto PortText BasePath : String) :
    List String → List AdminEvent × AdminExit
  | [] => ([], AdminExit.returned)
  | Addr :: rest =>
    match printAddress Proto PortText BasePath Addr with
    | none => ([], AdminExit.panicked)
    | some evs =>
      let r := printAddresses Proto PortText BasePath rest
      (evs ++ r.1, r.2)

/-- The outer loop of lines 334-346 over the interfaces. -/
def printInterfaces (Proto PortText BasePath : String) :
    List InterfaceStat → List AdminEvent × AdminExit
  | [] => ([], AdminExit.returned)
  | iface :: rest =>
    if upNotLoopback iface then
      match printAddresses Proto PortText BasePath iface.Addrs with
      | (evs, AdminExit.panicked) => (evs, AdminExit.panicked)
      | (evs, AdminExit.returned) =>
        let r := printInterfaces Proto PortText BasePath rest
        (evs ++ r.1, r.2)
    else printInterfaces Proto PortText BasePath rest

/-- Lines 330-355 of `getPanelURI`: the local addresses, then the public address. -/
def panelAddresses {σ : Type} (W : Services σ) (Proto PortText BasePath : String) (s : σ) :
    AdminRun σ :=
  let r1 := W.netInterfaces s
  match printInterfaces Proto PortText BasePath r1.1 with
  | (evs, AdminExit.panicked) =>
    ⟨r1.2, [println "Local address:", AdminEvent.netInterfaces] ++ evs, AdminExit.panicked⟩
  | (evs, AdminExit.returned) =>
    let r2 := W.httpGet "https://api.ipify.org?format=text" r1.2
    let out :=
      match r2.1 with
      | some (some ip) =>
        [AdminEvent.stdout
          ("\nGlobal address:\n" ++ Proto ++ ip ++ PortText ++ BasePath ++ "\n")]
      | _ => []
    ⟨r2.2,
     [println "Local address:", AdminEvent.netInterfaces] ++ evs ++
       [AdminEvent.httpGet "https://api.ipify.org?format=text"] ++ out,
     AdminExit.returned⟩

/-- The function `getPanelURI` (lines 287-356). -/
def getPanelURI {σ : Type} (W : Services σ) (s : σ) : AdminRun σ :=
  let r0 := W.initDB s
  match r0.1 with
  | some e => ⟨r0.2, [AdminEvent.initDB, println e], AdminExit.returned⟩
  | none =>
    let r := readPanelSettings W r0.2
    let c := r.1
    let TLS := panelTLS c.KeyFile c.CertFile
    let Proto := panelProto TLS
    let PortText := panelPortText c.Port TLS
    if c.Domain.utf8ByteSize > 0 then
      ⟨r.2, AdminEvent.initDB :: panelReads ++
        [println (Proto ++ c.Domain ++ PortText ++ c.BasePath)], AdminExit.returned⟩
    else if c.Listen.utf8ByteSize > 0 then
      ⟨r.2, AdminEvent.initDB :: panelReads ++
        [println (Proto ++ c.Listen ++ PortText ++ c.BasePath)], AdminExit.returned⟩
    else
      let k := panelAddresses W Proto PortText c.BasePath r.2
      ⟨k.state, AdminEvent.initDB :: panelReads ++ k.trace, k.exit⟩

/-! ## Reading a trace -/

/-- A `Start` or `Stop` call on a handle, without its result. -/
inductive Call where
  | start (h : Handle)
  | stop (h : Handle)
deriving DecidableEq, Repr

/-- The `Start` / `Stop` call an event is, if it is one. -/
def Event.call? : Event → Option Call
  | Event.start h _ => some (Call.start h)
  | Event.stop h _ => some (Call.stop h)
  | _ => none

/-- The `Start` and `Stop` calls of a trace, in order. -/
def calls (tr : List Event) : List Call := tr.filterMap Event.call?

/-- The ids of the handles of kind `k` on which `Stop` was called, one entry per call,
in order. -/
def stopsOf (k : Kind) (tr : List Event) : List Nat :=
  tr.filterMap fun ev =>
    match ev with
    | Event.stop h _ => if h.kind = k then some h.id else none
    | _ => none

/-- The ids of the handles of kind `k` on which `Start` was called, one entry per call,
in order. -/
def startsOf (k : Kind) (tr : List Event) : List Nat :=
  tr.filterMap fun ev =>
    match ev with
    | Event.start h _ => if h.kind = k then some h.id else none
    | _ => none

/-- The signals read from `sigCh`, in order. -/
def received (tr : List Event) : List Signal :=
  tr.filterMap fun ev =>
    match ev with
    | Event.recv sig => some sig
    | _ => none

/-- The writes to the Global Registry (`SetWebServer`, `SetSubServer`), in order. -/
def published (tr : List Event) : List Handle :=
  tr.filterMap fun ev =>
    match ev with
    | Event.setWebServer h => some h
    | Event.setSubServer h => some h
    | _ => none

/-- The events of the two `Stop` calls that open the `SIGHUP` case (lines 77-84), for
given results `e1`, `e2` of the calls. -/
def reloadStops (g g' : Nat) (e1 e2 : GoError) : List Event :=
  [Event.stop ⟨Kind.panel, g⟩ e1] ++ warnStop e1 ++
  [Event.stop ⟨Kind.subscription, g'⟩ e2] ++ warnStop e2

/-- The pair `a`, `b` is a `Stop` call on a handle and a `Start` call on that same
handle. -/
def IsRestart (a b : Event) : Prop :=
  ∃ h e e', a = Event.stop h e ∧ b = Event.start h e'

/-- The effect of one event on which handles are running from the supervisor's point of
view: a handle is running once `Start` is called on it, and no longer running once `Stop`
is called on it. -/
def runningStep (R : Handle → Bool) (ev : Event) (x : Handle) : Bool :=
  match ev with
  | Event.start h _ => if x = h then true else R x
  | Event.stop h _ => if x = h then false else R x
  | _ => R x

/-- The handles running after the events `tr`: those on which `Start` was called with no
`Stop` call after it.  A `Start` that failed counts as well. -/
def running (tr : List Event) : Handle → Bool :=
  tr.foldl runningStep (fun _ => false)

/-- At most one handle of each kind is running. -/
def AtMostOnePerKind (R : Handle → Bool) : Prop :=
  ∀ h1 h2, R h1 = true → R h2 = true → h1.kind = h2.kind → h1 = h2

/-- No handle is running other than the panel handle `a` and the subscription handle
`b`. -/
def OnlyRunning (a b : Nat) (R : Handle → Bool) : Prop :=
  ∀ h, R h = true → h = ⟨Kind.panel, a⟩ ∨ h = ⟨Kind.subscription, b⟩

/-- Run from a point where only the handles `a`, `b` may be running, the events `tr` keep
at most one handle of each kind running throughout, and leave only `a'`, `b'`. -/
def Keeps (a b : Nat) (tr : List Event) (a' b' : Nat) : Prop :=
  ∀ R, OnlyRunning a b R →
    (∀ pre, pre <+: tr → AtMostOnePerKind (pre.foldl runningStep R)) ∧
    OnlyRunning a' b' (tr.foldl runningStep R)

/-! ## Example collaborators -/

/-- Collaborators whose every call succeeds. -/
def allOk : Servers Unit where
  getLogLevel := LogLevel.Info
  initDB := fun s => (none, s)
  start := fun _ s => (none, s)
  stop := fun _ s => (none, s)

/-- Collaborators for which `Start` of every panel server fails and all else succeeds. -/
def panelStartFails : Servers Unit where
  getLogLevel := LogLevel.Info
  initDB := fun s => (none, s)
  start := fun h s =>
    (if h.kind = Kind.panel then some "listen tcp :2053: bind: address already in use"
     else none, s)
  stop := fun _ s => (none, s)

/-- Collaborators for which `Start` of every subscription server fails and all else
succeeds. -/
def subStartFails : Servers Unit where
  getLogLevel := LogLevel.Info
  initDB := fun s => (none, s)
  start := fun h s =>
    (if h.kind = Kind.subscription then some "listen tcp :2096: bind: address already in use"
     else none, s)
  stop := fun _ s => (none, s)

/-- Collaborators for which the boot succeeds and `Start` of every later subscription
server fails. -/
def reloadStartFails : Servers Unit where
  getLogLevel := LogLevel.Info
  initDB := fun s => (none, s)
  start := fun h s =>
    (if h.kind = Kind.subscription ∧ 0 < h.id then some "address already in use"
     else none, s)
  stop := fun _ s => (none, s)

/-- A store of settings, for the example services below. -/
structure Store where
  port : Int
  basePath : String
  listen : String
  domain : String
  keyFile : String
  certFile : String
  tgToken : String
  tgRuntime : String
  tgChatId : String
  username : String
  password : String
deriving DecidableEq, Repr

/-- A freshly installed panel: port 2053, no domain, no certificate. -/
def freshStore : Store :=
  ⟨2053, "/", "", "", "", "", "", "", "", "admin", "admin"⟩

/-- A panel served at `panel.example.org` on port 443 with a certificate, listening on
`10.0.0.1`. -/
def tlsStore : Store :=
  ⟨443, "/x/", "10.0.0.1", "panel.example.org", "/etc/key.pem", "/etc/cert.pem", "", "", "",
   "admin", "admin"⟩

/-- Services over a `Store`: a setter named in `failing` returns an error and leaves the
store as it is, every other setter writes its field. -/
def storeServices (failing : List String) : Services Store where
  initDB := fun s => (none, s)
  setTgBotToken := fun v s =>
    if "SetTgBotToken" ∈ failing then (some "database is locked", s)
    else (none, { s with tgToken := v })
  setTgbotRuntime := fun v s =>
    if "SetTgbotRuntime" ∈ failing then (some "database is locked", s)
    else (none, { s with tgRuntime := v })
  setTgBotChatId := fun v s =>
    if "SetTgBotChatId" ∈ failing then (some "database is locked", s)
    else (none, { s with tgChatId := v })
  setPort := fun v s =>
    if "SetPort" ∈ failing then (some "database is locked", s)
    else (none, { s with port := v })
  updateFirstUser := fun u w s =>
    if "UpdateFirstUser" ∈ failing then (some "database is locked", s)
    else (none, { s with username := u, password := w })
  setBasePath := fun v s =>
    if "SetBasePath" ∈ failing then (some "database is locked", s)
    else (none, { s with basePath := v })
  setCertFile := fun v s =>
    if "SetCertFile" ∈ failing then (some "database is locked", s)
    else (none, { s with certFile := v })
  setKeyFile := fun v s =>
    if "SetKeyFile" ∈ failing then (some "database is locked", s)
    else (none, { s with keyFile := v })
  getPort := fun s => (s.port, s)
  getBasePath := fun s => (s.basePath, s)
  getListen := fun s => (s.listen, s)
  getWebDomain := fun s => (s.domain, s)
  getKeyFile := fun s => (s.keyFile, s)
  getCertFile := fun s => (s.certFile, s)
  netInterfaces := fun s => ([], s)
  httpGet := fun _ s => (none, s)

/-! ## Theorems -/

section Supervisor

variable {σ : Type}

theorem stopsOf_append (k : Kind) (a b : List Event) :
    stopsOf k (a ++ b) = stopsOf k a ++ stopsOf k b := by
  simp [stopsOf]

theorem startsOf_append (k : Kind) (a b : List Event) :
    startsOf k (a ++ b) = startsOf k a ++ startsOf k b := by
  simp [startsOf]

theorem received_append (a b : List Event) :
    received (a ++ b) = received a ++ received b := by
  simp [received]

/-- When every `Start` succeeds the reload branch runs to its end. -/
theorem caseSIGHUP_of_start_ok (W : Servers σ) (hstart : ∀ h t, (W.start h t).1 = none)
    (g g' : Nat) (s : σ) :
    (caseSIGHUP W g g' s).next = some (g + 1, g' + 1) ∧
    stopsOf Kind.panel (caseSIGHUP W g g' s).trace = [g] ∧
    stopsOf Kind.subscription (caseSIGHUP W g g' s).trace = [g'] ∧
    startsOf Kind.panel (caseSIGHUP W g g' s).trace = [g + 1] ∧
    startsOf Kind.subscription (caseSIGHUP W g g' s).trace = [g' + 1] ∧
    received (caseSIGHUP W g g' s).trace = [] := by
  cases h1 : (W.stop ⟨Kind.panel, g⟩ s).1 <;>
  cases h2 : (W.stop ⟨Kind.subscription, g'⟩ (W.stop ⟨Kind.panel, g⟩ s).2).1 <;>
  simp [caseSIGHUP, hstart, h1, h2, warnStop, stopsOf, startsOf, received]

theorem switchSig_of_ne (W : Servers σ) (sig : Signal) (hsig : sig ≠ Signal.SIGHUP)
    (g g' : Nat) (s : σ) : switchSig W sig g g' s = caseDefault W g g' s := by
  cases sig <;> simp_all [switchSig]

theorem signalLoop_cons_SIGHUP (W : Servers σ) (g g' : Nat) (s : σ) (sigs : List Signal) :
    signalLoop W g g' s (Signal.SIGHUP :: sigs) =
      match (caseSIGHUP W g g' s).next with
      | none => ⟨Exit.returned, (caseSIGHUP W g g' s).state,
          Event.recv Signal.SIGHUP :: (caseSIGHUP W g g' s).trace⟩
      | some (a, b) =>
        ⟨(signalLoop W a b (caseSIGHUP W g g' s).state sigs).exit,
         (signalLoop W a b (caseSIGHUP W g g' s).state sigs).state,
         Event.recv Signal.SIGHUP :: (caseSIGHUP W g g' s).trace ++
           (signalLoop W a b (caseSIGHUP W g g' s).state sigs).trace⟩ := by
  simp only [signalLoop, switchSig]

theorem signalLoop_cons_of_ne (W : Servers σ) (sig : Signal) (hsig : sig ≠ Signal.SIGHUP)
    (g g' : Nat) (s : σ) (sigs : List Signal) :
    signalLoop W g g' s (sig :: sigs) =
      ⟨Exit.returned, (caseDefault W g g' s).state,
       Event.recv sig :: (caseDefault W g g' s).trace⟩ := by
  simp only [signalLoop, switchSig_of_ne W sig hsig]
  rfl

/-- The loop on `n` reloads followed by a signal that is not a reload, every `Start`
succeeding. -/
theorem signalLoop_reloads (W : Servers σ) (hstart : ∀ h t, (W.start h t).1 = none)
    (sig : Signal) (hsig : sig ≠ Signal.SIGHUP) (rest : List Signal) :
    ∀ (n g g' : Nat) (s : σ),
      (signalLoop W g g' s (List.replicate n Signal.SIGHUP ++ sig :: rest)).exit
          = Exit.returned ∧
      received (signalLoop W g g' s (List.replicate n Signal.SIGHUP ++ sig :: rest)).trace
          = List.replicate n Signal.SIGHUP ++ [sig] ∧
      stopsOf Kind.panel
          (signalLoop W g g' s (List.replicate n Signal.SIGHUP ++ sig :: rest)).trace
          = List.range' g (n + 1) ∧
      stopsOf Kind.subscription
          (signalLoop W g g' s (List.replicate n Signal.SIGHUP ++ sig :: rest)).trace
          = List.range' g' (n + 1) ∧
      startsOf Kind.panel
          (signalLoop W g g' s (List.replicate n Signal.SIGHUP ++ sig :: rest)).trace
          = List.range' (g + 1) n ∧
      startsOf Kind.subscription
          (signalLoop W g g' s (List.replicate n Signal.SIGHUP ++ sig :: rest)).trace
          = List.range' (g' + 1) n ∧
      ∃ pre e1 e2,
        (signalLoop W g g' s (List.replicate n Signal.SIGHUP ++ sig :: rest)).trace
          = pre ++ [Event.recv sig, Event.stop ⟨Kind.panel, g + n⟩ e1,
                    Event.stop ⟨Kind.subscription, g' + n⟩ e2] := by
  intro n
  induction n with
  | zero =>
    intro g g' s
    simp only [List.replicate_zero, List.nil_append, signalLoop_cons_of_ne W sig hsig]
    refine ⟨trivial, ?_, ?_, ?_, ?_, ?_, ⟨[], _, _, rfl⟩⟩ <;>
      simp [caseDefault, received, stopsOf, startsOf]
  | succ n ih =>
    intro g g' s
    obtain ⟨hn, hp, hs, hp', hs', hr⟩ := caseSIGHUP_of_start_ok W hstart g g' s
    obtain ⟨i1, i2, i3, i4, i5, i6, pre, e1, e2, i7⟩ :=
      ih (g + 1) (g' + 1) (caseSIGHUP W g g' s).state
    simp only [List.replicate_succ, List.cons_append, signalLoop_cons_SIGHUP, hn]
    refine ⟨i1, ?_, ?_, ?_, ?_, ?_, ?_⟩
    · rw [← List.singleton_append, received_append, received_append, hr, i2]
      simp [received]
    · rw [← List.singleton_append, stopsOf_append, stopsOf_append, hp, i3]
      simp [stopsOf, List.range'_succ]
    · rw [← List.singleton_append, stopsOf_append, stopsOf_append, hs, i4]
      simp [stopsOf, List.range'_succ]
    · rw [← List.singleton_append, startsOf_append, startsOf_append, hp', i5]
      simp [startsOf, List.range'_succ]
    · rw [← List.singleton_append, startsOf_append, startsOf_append, hs', i6]
      simp [startsOf, List.range'_succ]
    · refine ⟨Event.recv Signal.SIGHUP :: (caseSIGHUP W g g' s).trace ++ pre, e1, e2, ?_⟩
      rw [i7]
      simp [Nat.add_assoc, Nat.add_comm 1 n]

/-- The events of a boot in which both `Start` calls succeed. -/
theorem runWebServer_of_boot_ok (W : Servers σ) (s : σ) (sigs : List Signal)
    (hlog : ∀ name, W.getLogLevel ≠ LogLevel.unknown name)
    (hdb : (W.initDB s).1 = none)
    (hp : (W.start ⟨Kind.panel, 0⟩ (W.initDB s).2).1 = none)
    (hs : (W.start ⟨Kind.subscription, 0⟩
            (W.start ⟨Kind.panel, 0⟩ (W.initDB s).2).2).1 = none) :
    ∃ t, (runWebServer W s sigs).exit = (signalLoop W 0 0 t sigs).exit ∧
      (runWebServer W s sigs).trace =
        [Event.logPrintf, Event.initLogger W.getLogLevel, Event.initDB none,
         Event.newServer ⟨Kind.panel, 0⟩, Event.setWebServer ⟨Kind.panel, 0⟩,
         Event.start ⟨Kind.panel, 0⟩ none,
         Event.newServer ⟨Kind.subscription, 0⟩, Event.setSubServer ⟨Kind.subscription, 0⟩,
         Event.start ⟨Kind.subscription, 0⟩ none] ++ (signalLoop W 0 0 t sigs).trace := by
  refine ⟨(W.start ⟨Kind.subscription, 0⟩ (W.start ⟨Kind.panel, 0⟩ (W.initDB s).2).2).2, ?_⟩
  cases hl : W.getLogLevel with
  | unknown name => exact absurd hl (hlog name)
  | _ => simp [runWebServer, initLogLevel, hl, hdb, hp, hs]

/-- C1. If the boot succeeds (known log level, database opened), every `Start` succeeds,
and `runWebServer` receives `n` reloads (`SIGHUP`) followed by one signal that is not a
reload (`SIGTERM` or any other signal), then whatever the `Stop` calls return:
`runWebServer` returns; it has read exactly those `n + 1` signals; `Stop` was called
`n + 1` times on panel handles and `n + 1` times on subscription handles, once on each of
the generations `0, …, n` in that order; `Start` was called once on each generation; and
the trace ends with the terminate branch stopping the last generation `n` of each kind,
with nothing (so no `Start`) after it. -/
theorem C1_reloads_then_terminate (W : Servers σ) (s : σ) (n : Nat) (sig : Signal)
    (rest : List Signal)
    (hlog : ∀ name, W.getLogLevel ≠ LogLevel.unknown name)
    (hdb : (W.initDB s).1 = none)
    (hstart : ∀ h t, (W.start h t).1 = none)
    (hsig : sig ≠ Signal.SIGHUP) :
    (runWebServer W s (List.replicate n Signal.SIGHUP ++ sig :: rest)).exit
        = Exit.returned ∧
    received (runWebServer W s (List.replicate n Signal.SIGHUP ++ sig :: rest)).trace
        = List.replicate n Signal.SIGHUP ++ [sig] ∧
    (stopsOf Kind.panel
        (runWebServer W s (List.replicate n Signal.SIGHUP ++ sig :: rest)).trace).length
        = n + 1 ∧
    (stopsOf Kind.subscription
        (runWebServer W s (List.replicate n Signal.SIGHUP ++ sig :: rest)).trace).length
        = n + 1 ∧
    stopsOf Kind.panel
        (runWebServer W s (List.replicate n Signal.SIGHUP ++ sig :: rest)).trace
        = List.range (n + 1) ∧
    stopsOf Kind.subscription
        (runWebServer W s (List.replicate n Signal.SIGHUP ++ sig :: rest)).trace
        = List.range (n + 1) ∧
    startsOf Kind.panel
        (runWebServer W s (List.replicate n Signal.SIGHUP ++ sig :: rest)).trace
        = List.range (n + 1) ∧
    startsOf Kind.subscription
        (runWebServer W s (List.replicate n Signal.SIGHUP ++ sig :: rest)).trace
        = List.range (n + 1) ∧
    ∃ pre e1 e2,
      (runWebServer W s (List.replicate n Signal.SIGHUP ++ sig :: rest)).trace
        = pre ++ [Event.recv sig, Event.stop ⟨Kind.panel, n⟩ e1,
                  Event.stop ⟨Kind.subscription, n⟩ e2] := by
  obtain ⟨t, hexit, htrace⟩ :=
    runWebServer_of_boot_ok W s (List.replicate n Signal.SIGHUP ++ sig :: rest) hlog hdb
      (hstart _ _) (hstart _ _)
  obtain ⟨i1, i2, i3, i4, i5, i6, pre, e1, e2, i7⟩ :=
    signalLoop_reloads W hstart sig hsig rest n 0 0 t
  have hP : stopsOf Kind.panel
      (runWebServer W s (List.replicate n Signal.SIGHUP ++ sig :: rest)).trace
      = List.range (n + 1) := by
    rw [htrace, stopsOf_append, i3, List.range_eq_range']
    simp [stopsOf]
  have hS : stopsOf Kind.subscription
      (runWebServer W s (List.replicate n Signal.SIGHUP ++ sig :: rest)).trace
      = List.range (n + 1) := by
    rw [htrace, stopsOf_append, i4, List.range_eq_range']
    simp [stopsOf]
  refine ⟨hexit.trans i1, ?_, ?_, ?_, hP, hS, ?_, ?_, ?_⟩
  · rw [htrace, received_append, i2]
    simp [received]
  · rw [hP, List.length_range]
  · rw [hS, List.length_range]
  · rw [htrace, startsOf_append, i5, List.range_eq_range', List.range'_succ]
    simp [startsOf]
  · rw [htrace, startsOf_append, i6, List.range_eq_range', List.range'_succ]
    simp [startsOf]
  · rw [htrace, i7, Nat.zero_add, ← List.append_assoc]
    exact ⟨_, e1, e2, rfl⟩

/-- C1 at two reloads followed by `SIGTERM`, all calls succeeding. -/
theorem C1_reloads_then_terminate_witness :
    (runWebServer allOk () [Signal.SIGHUP, Signal.SIGHUP, Signal.SIGTERM]).exit
        = Exit.returned ∧
    stopsOf Kind.panel
        (runWebServer allOk () [Signal.SIGHUP, Signal.SIGHUP, Signal.SIGTERM]).trace
        = [0, 1, 2] ∧
    stopsOf Kind.subscription
        (runWebServer allOk () [Signal.SIGHUP, Signal.SIGHUP, Signal.SIGTERM]).trace
        = [0, 1, 2] :=
  have h := C1_reloads_then_terminate allOk () 2 Signal.SIGTERM []
    (by intro name; simp [allOk]) rfl (fun _ _ => rfl) (by decide)
  ⟨h.1, h.2.2.2.2.1, h.2.2.2.2.2.1⟩

theorem not_mem_reloadStops_start (g g' : Nat) (e1 e2 : GoError) (h : Handle)
    (e : GoError) : Event.start h e ∉ reloadStops g g' e1 e2 := by
  cases e1 <;> cases e2 <;> simp [reloadStops, warnStop]

theorem mem_reloadStops_stop (g g' : Nat) (e1 e2 : GoError) (h : Handle) (e : GoError)
    (hm : Event.stop h e ∈ reloadStops g g' e1 e2) :
    h = ⟨Kind.panel, g⟩ ∨ h = ⟨Kind.subscription, g'⟩ := by
  cases e1 <;> cases e2 <;> simp [reloadStops, warnStop] at hm <;> tauto

/-- The three ways the reload branch can go: the panel `Start` fails, the subscription
`Start` fails, or both succeed. -/
theorem caseSIGHUP_shape (W : Servers σ) (g g' : Nat) (s : σ) :
    ∃ e1 e2,
      (∃ e, (caseSIGHUP W g g' s).next = none ∧ (caseSIGHUP W g g' s).trace =
        reloadStops g g' e1 e2 ++
        [Event.newServer ⟨Kind.panel, g + 1⟩, Event.setWebServer ⟨Kind.panel, g + 1⟩,
         Event.start ⟨Kind.panel, g + 1⟩ (some e), Event.logPrintln e]) ∨
      (∃ e, (caseSIGHUP W g g' s).next = none ∧ (caseSIGHUP W g g' s).trace =
        reloadStops g g' e1 e2 ++
        [Event.newServer ⟨Kind.panel, g + 1⟩, Event.setWebServer ⟨Kind.panel, g + 1⟩,
         Event.start ⟨Kind.panel, g + 1⟩ none,
         Event.newServer ⟨Kind.subscription, g' + 1⟩,
         Event.setSubServer ⟨Kind.subscription, g' + 1⟩,
         Event.start ⟨Kind.subscription, g' + 1⟩ (some e), Event.logPrintln e]) ∨
      ((caseSIGHUP W g g' s).next = some (g + 1, g' + 1) ∧ (caseSIGHUP W g g' s).trace =
        reloadStops g g' e1 e2 ++
        [Event.newServer ⟨Kind.panel, g + 1⟩, Event.setWebServer ⟨Kind.panel, g + 1⟩,
         Event.start ⟨Kind.panel, g + 1⟩ none,
         Event.newServer ⟨Kind.subscription, g' + 1⟩,
         Event.setSubServer ⟨Kind.subscription, g' + 1⟩,
         Event.start ⟨Kind.subscription, g' + 1⟩ none]) := by
  refine ⟨(W.stop ⟨Kind.panel, g⟩ s).1,
    (W.stop ⟨Kind.subscription, g'⟩ (W.stop ⟨Kind.panel, g⟩ s).2).1, ?_⟩
  cases h3 : (W.start ⟨Kind.panel, g + 1⟩
    (W.stop ⟨Kind.subscription, g'⟩ (W.stop ⟨Kind.panel, g⟩ s).2).2).1 with
  | some e => exact Or.inl ⟨e, by simp [caseSIGHUP, reloadStops, h3]⟩
  | none =>
    cases h4 : (W.start ⟨Kind.subscription, g' + 1⟩ (W.start ⟨Kind.panel, g + 1⟩
      (W.stop ⟨Kind.subscription, g'⟩ (W.stop ⟨Kind.panel, g⟩ s).2).2).2).1 with
    | some e => exact Or.inr (Or.inl ⟨e, by simp [caseSIGHUP, reloadStops, h3, h4]⟩)
    | none => exact Or.inr (Or.inr (by simp [caseSIGHUP, reloadStops, h3, h4]))

/-- A suffix that begins with a failed `Start` lies in the second part of a trace whose
first part has no `Start`. -/
theorem failed_suffix_append (A B : List Event) (hA : ∀ h e, Event.start h (some e) ∉ A)
    (h : Handle) (e : String) (post : List Event)
    (hsuf : (Event.start h (some e) :: post) <:+ (A ++ B)) :
    (Event.start h (some e) :: post) <:+ B := by
  induction A with
  | nil => simpa using hsuf
  | cons a A ih =>
    rw [List.cons_append, List.suffix_cons_iff] at hsuf
    rcases hsuf with heq | hsuf
    · have ha : a = Event.start h (some e) := (List.cons.inj heq).1.symm
      exact absurd (List.mem_cons_self _ _) (ha ▸ hA h e)
    · exact ih (fun h' e' hm => hA h' e' (List.mem_cons_of_mem _ hm)) hsuf

/-- A suffix that begins with a failed `Start` does not begin at a receive. -/
theorem failed_suffix_recv (sig : Signal) (B : List Event)
    (h : Handle) (e : String) (post : List Event)
    (hsuf : (Event.start h (some e) :: post) <:+ (Event.recv sig :: B)) :
    (Event.start h (some e) :: post) <:+ B := by
  rw [List.suffix_cons_iff] at hsuf
  rcases hsuf with heq | hsuf
  · simp at heq
  · exact hsuf

/-- In the loop, a failed `Start` is followed by its log line and by nothing else, and
the function has returned. -/
theorem signalLoop_failed_start (W : Servers σ) :
    ∀ (sigs : List Signal) (g g' : Nat) (s : σ) (h : Handle) (e : String)
      (post : List Event),
      (Event.start h (some e) :: post) <:+ (signalLoop W g g' s sigs).trace →
      post = [Event.logPrintln e] ∧ (signalLoop W g g' s sigs).exit = Exit.returned := by
  intro sigs
  induction sigs with
  | nil =>
    intro g g' s h e post hsuf
    simp [signalLoop] at hsuf
  | cons sig sigs ih =>
    intro g g' s h e post hsuf
    by_cases hsig : sig = Signal.SIGHUP
    · subst hsig
      rw [signalLoop_cons_SIGHUP] at hsuf ⊢
      obtain ⟨e1, e2, hc⟩ := caseSIGHUP_shape W g g' s
      rcases hc with ⟨e3, hn, ht⟩ | ⟨e3, hn, ht⟩ | ⟨hn, ht⟩
      · rw [hn] at hsuf ⊢
        simp only [ht] at hsuf
        have h2 := failed_suffix_append _ _
          (fun h' e' => not_mem_reloadStops_start _ _ _ _ h' (some e')) h e post
          (failed_suffix_recv _ _ _ _ _ hsuf)
        simp [List.suffix_cons_iff] at h2
        exact ⟨by rw [h2.2, h2.1.2], rfl⟩
      · rw [hn] at hsuf ⊢
        simp only [ht] at hsuf
        have h2 := failed_suffix_append _ _
          (fun h' e' => not_mem_reloadStops_start _ _ _ _ h' (some e')) h e post
          (failed_suffix_recv _ _ _ _ _ hsuf)
        simp [List.suffix_cons_iff] at h2
        exact ⟨by rw [h2.2, h2.1.2], rfl⟩
      · rw [hn] at hsuf ⊢
        simp only [ht, List.cons_append, List.append_assoc] at hsuf
        have h2 := failed_suffix_append _ _
          (fun h' e' => not_mem_reloadStops_start _ _ _ _ h' (some e')) h e post
          (failed_suffix_recv _ _ _ _ _ hsuf)
        have h3 : (Event.start h (some e) :: post) <:+
            (signalLoop W (g + 1) (g' + 1) (caseSIGHUP W g g' s).state sigs).trace := by
          simpa [List.suffix_cons_iff] using h2
        exact ih _ _ _ _ _ _ h3
    · rw [signalLoop_cons_of_ne W sig hsig] at hsuf ⊢
      simp [caseDefault, List.suffix_cons_iff] at hsuf

/-- The reload branch calls `Stop` only on the two handles it was entered with. -/
theorem mem_caseSIGHUP_stop (W : Servers σ) (g g' : Nat) (s : σ) (h : Handle) (e : GoError)
    (hm : Event.stop h e ∈ (caseSIGHUP W g g' s).trace) :
    h = ⟨Kind.panel, g⟩ ∨ h = ⟨Kind.subscription, g'⟩ := by
  obtain ⟨e1, e2, hc⟩ := caseSIGHUP_shape W g g' s
  rcases hc with ⟨e3, -, ht⟩ | ⟨e3, -, ht⟩ | ⟨-, ht⟩ <;>
  · rw [ht] at hm
    rcases List.mem_append.1 hm with hm | hm
    · exact mem_reloadStops_stop _ _ _ _ _ _ hm
    · simp at hm

/-- The reload branch calls `Start` only on the two handles it constructs. -/
theorem mem_caseSIGHUP_start (W : Servers σ) (g g' : Nat) (s : σ) (h : Handle)
    (e : GoError) (hm : Event.start h e ∈ (caseSIGHUP W g g' s).trace) :
    h = ⟨Kind.panel, g + 1⟩ ∨ h = ⟨Kind.subscription, g' + 1⟩ := by
  obtain ⟨e1, e2, hc⟩ := caseSIGHUP_shape W g g' s
  rcases hc with ⟨e3, -, ht⟩ | ⟨e3, -, ht⟩ | ⟨-, ht⟩ <;>
  · rw [ht] at hm
    rcases List.mem_append.1 hm with hm | hm
    · exact absurd hm (not_mem_reloadStops_start _ _ _ _ _ _)
    · simp at hm
      tauto

/-- Every handle started in the loop is newer than the handle of its kind the loop was
entered with. -/
theorem signalLoop_start_id (W : Servers σ) :
    ∀ (sigs : List Signal) (g g' : Nat) (s : σ) (h : Handle) (e : GoError),
      Event.start h e ∈ (signalLoop W g g' s sigs).trace →
      (h.kind = Kind.panel → g < h.id) ∧ (h.kind = Kind.subscription → g' < h.id) := by
  intro sigs
  induction sigs with
  | nil =>
    intro g g' s h e hm
    simp [signalLoop] at hm
  | cons sig sigs ih =>
    intro g g' s h e hm
    by_cases hsig : sig = Signal.SIGHUP
    · subst hsig
      rw [signalLoop_cons_SIGHUP] at hm
      have hnew : Event.start h e ∈ (caseSIGHUP W g g' s).trace →
          (h.kind = Kind.panel → g < h.id) ∧ (h.kind = Kind.subscription → g' < h.id) := by
        intro hm'
        rcases mem_caseSIGHUP_start W g g' s h e hm' with rfl | rfl <;> simp
      cases hn : (caseSIGHUP W g g' s).next with
      | none =>
        rw [hn] at hm
        simp only [List.mem_cons] at hm
        rcases hm with hm | hm
        · simp at hm
        · exact hnew hm
      | some ab =>
        obtain ⟨a, b⟩ := ab
        have hab : a = g + 1 ∧ b = g' + 1 := by
          obtain ⟨e1, e2, hc⟩ := caseSIGHUP_shape W g g' s
          rcases hc with ⟨e3, hn', -⟩ | ⟨e3, hn', -⟩ | ⟨hn', -⟩ <;> simp_all
        obtain ⟨rfl, rfl⟩ := hab
        rw [hn] at hm
        simp only [List.mem_cons, List.mem_append] at hm
        rcases hm with (hm | hm) | hm
        · simp at hm
        · exact hnew hm
        · have := ih _ _ _ _ _ hm
          exact ⟨fun hk => by have := this.1 hk; omega,
                 fun hk => by have := this.2 hk; omega⟩
    · rw [signalLoop_cons_of_ne W sig hsig] at hm
      simp [caseDefault] at hm

/-- In the loop no handle is started after it was stopped. -/
theorem signalLoop_no_restart (W : Servers σ) :
    ∀ (sigs : List Signal) (g g' : Nat) (s : σ),
      (signalLoop W g g' s sigs).trace.Pairwise (fun a b => ¬ IsRestart a b) := by
  intro sigs
  induction sigs with
  | nil =>
    intro g g' s
    simp [signalLoop]
  | cons sig sigs ih =>
    intro g g' s
    by_cases hsig : sig = Signal.SIGHUP
    · subst hsig
      rw [signalLoop_cons_SIGHUP]
      have hct : (caseSIGHUP W g g' s).trace.Pairwise (fun a b => ¬ IsRestart a b) := by
        apply List.pairwise_of_forall_mem_list
        rintro a ha b hb ⟨h, e, e', rfl, rfl⟩
        rcases mem_caseSIGHUP_stop W g g' s h e ha with rfl | rfl <;>
        rcases mem_caseSIGHUP_start W g g' s _ e' hb with hh | hh <;>
        simp at hh
      cases hn : (caseSIGHUP W g g' s).next with
      | none =>
        simp only [List.pairwise_cons]
        exact ⟨fun b _ hr => by obtain ⟨h, e, e', h1, -⟩ := hr; simp at h1, hct⟩
      | some ab =>
        obtain ⟨a, b⟩ := ab
        simp only [List.cons_append, List.pairwise_cons, List.pairwise_append]
        refine ⟨fun b _ hr => by obtain ⟨h, e, e', h1, -⟩ := hr; simp at h1, hct,
          ih _ _ _, ?_⟩
        rintro x hx y hy ⟨h, e, e', rfl, rfl⟩
        have hab : a = g + 1 ∧ b = g' + 1 := by
          obtain ⟨e1, e2, hc⟩ := caseSIGHUP_shape W g g' s
          rcases hc with ⟨e3, hn', -⟩ | ⟨e3, hn', -⟩ | ⟨hn', -⟩ <;> simp_all
        obtain ⟨rfl, rfl⟩ := hab
        have hid := signalLoop_start_id W sigs _ _ _ h e' hy
        rcases mem_caseSIGHUP_stop W g g' s h e hx with rfl | rfl
        · have := hid.1 rfl
          simp at this
        · have := hid.2 rfl
          simp at this
    · rw [signalLoop_cons_of_ne W sig hsig]
      simp [caseDefault, IsRestart]

theorem atMostOnePerKind_of_onlyRunning {a b : Nat} {R : Handle → Bool}
    (hR : OnlyRunning a b R) : AtMostOnePerKind R := by
  intro h1 h2 r1 r2 hk
  rcases hR h1 r1 with rfl | rfl <;> rcases hR h2 r2 with rfl | rfl <;> simp_all

theorem keeps_nil (a b : Nat) : Keeps a b [] a b := by
  intro R hR
  refine ⟨fun pre hpre => ?_, hR⟩
  rw [List.prefix_nil] at hpre
  subst hpre
  exact atMostOnePerKind_of_onlyRunning hR

theorem keeps_cons {a b a1 b1 a2 b2 : Nat} {ev : Event} {tr : List Event}
    (hstep : ∀ R, OnlyRunning a b R → OnlyRunning a1 b1 (runningStep R ev))
    (htr : Keeps a1 b1 tr a2 b2) : Keeps a b (ev :: tr) a2 b2 := by
  intro R hR
  obtain ⟨h1, h2⟩ := htr _ (hstep R hR)
  refine ⟨fun pre hpre => ?_, h2⟩
  rw [List.prefix_cons_iff] at hpre
  rcases hpre with rfl | ⟨t, rfl, ht⟩
  · exact atMostOnePerKind_of_onlyRunning hR
  · exact h1 t ht

theorem keeps_append {a b a1 b1 a2 b2 : Nat} {A B : List Event}
    (hA : Keeps a b A a1 b1) (hB : Keeps a1 b1 B a2 b2) : Keeps a b (A ++ B) a2 b2 := by
  intro R hR
  obtain ⟨h1, h2⟩ := hA R hR
  obtain ⟨h3, h4⟩ := hB _ h2
  refine ⟨fun pre hpre => ?_, by rw [List.foldl_append]; exact h4⟩
  rcases List.prefix_or_prefix_of_prefix hpre (List.prefix_append A B) with hp | ⟨t, rfl⟩
  · exact h1 pre hp
  · rw [List.foldl_append]
    exact h3 t ((List.prefix_append_right_inj A).1 hpre)

theorem onlyRunning_stop_panel {g g' g2 : Nat} {R : Handle → Bool} (e : GoError)
    (hR : OnlyRunning g g' R) :
    OnlyRunning g2 g' (runningStep R (Event.stop ⟨Kind.panel, g⟩ e)) := by
  intro h hh
  simp only [runningStep] at hh
  split at hh
  · cases hh
  · rcases hR h hh with rfl | rfl
    · simp at *
    · exact Or.inr rfl

theorem onlyRunning_stop_sub {g g' g2 : Nat} {R : Handle → Bool} (e : GoError)
    (hR : OnlyRunning g g' R) :
    OnlyRunning g g2 (runningStep R (Event.stop ⟨Kind.subscription, g'⟩ e)) := by
  intro h hh
  simp only [runningStep] at hh
  split at hh
  · cases hh
  · rcases hR h hh with rfl | rfl
    · exact Or.inl rfl
    · simp at *

theorem onlyRunning_start_panel {g g' : Nat} {R : Handle → Bool} (e : GoError)
    (hR : OnlyRunning g g' R) :
    OnlyRunning g g' (runningStep R (Event.start ⟨Kind.panel, g⟩ e)) := by
  intro h hh
  simp only [runningStep] at hh
  split at hh
  · exact Or.inl (by assumption)
  · exact hR h hh

theorem onlyRunning_start_sub {g g' : Nat} {R : Handle → Bool} (e : GoError)
    (hR : OnlyRunning g g' R) :
    OnlyRunning g g' (runningStep R (Event.start ⟨Kind.subscription, g'⟩ e)) := by
  intro h hh
  simp only [runningStep] at hh
  split at hh
  · exact Or.inr (by assumption)
  · exact hR h hh

theorem keeps_warnStop (a b : Nat) (e : GoError) : Keeps a b (warnStop e) a b := by
  cases e with
  | none => exact keeps_nil a b
  | some e => exact keeps_cons (fun R hR => hR) (keeps_nil a b)

theorem keeps_reloadStops (g g' : Nat) (e1 e2 : GoError) :
    Keeps g g' (reloadStops g g' e1 e2) (g + 1) (g' + 1) := by
  unfold reloadStops
  exact keeps_append (keeps_append (keeps_append
    (keeps_cons (fun R hR => onlyRunning_stop_panel e1 hR) (keeps_nil (g + 1) g'))
    (keeps_warnStop _ _ e1))
    (keeps_cons (fun R hR => onlyRunning_stop_sub e2 hR) (keeps_nil (g + 1) (g' + 1))))
    (keeps_warnStop _ _ e2)

/-- The reload branch keeps at most one handle of each kind running. -/
theorem keeps_caseSIGHUP (W : Servers σ) (g g' : Nat) (s : σ) :
    Keeps g g' (caseSIGHUP W g g' s).trace (g + 1) (g' + 1) := by
  obtain ⟨e1, e2, hc⟩ := caseSIGHUP_shape W g g' s
  rcases hc with ⟨e3, -, ht⟩ | ⟨e3, -, ht⟩ | ⟨-, ht⟩
  · rw [ht]
    exact keeps_append (keeps_reloadStops g g' e1 e2)
      (keeps_cons (fun R hR => hR) (keeps_cons (fun R hR => hR)
        (keeps_cons (fun R hR => onlyRunning_start_panel _ hR)
          (keeps_cons (fun R hR => hR) (keeps_nil _ _)))))
  · rw [ht]
    exact keeps_append (keeps_reloadStops g g' e1 e2)
      (keeps_cons (fun R hR => hR) (keeps_cons (fun R hR => hR)
        (keeps_cons (fun R hR => onlyRunning_start_panel _ hR)
          (keeps_cons (fun R hR => hR) (keeps_cons (fun R hR => hR)
            (keeps_cons (fun R hR => onlyRunning_start_sub _ hR)
              (keeps_cons (fun R hR => hR) (keeps_nil _ _))))))))
  · rw [ht]
    exact keeps_append (keeps_reloadStops g g' e1 e2)
      (keeps_cons (fun R hR => hR) (keeps_cons (fun R hR => hR)
        (keeps_cons (fun R hR => onlyRunning_start_panel _ hR)
          (keeps_cons (fun R hR => hR) (keeps_cons (fun R hR => hR)
            (keeps_cons (fun R hR => onlyRunning_start_sub _ hR) (keeps_nil _ _)))))))

/-- The loop keeps at most one handle of each kind running. -/
theorem keeps_signalLoop (W : Servers σ) :
    ∀ (sigs : List Signal) (g g' : Nat) (s : σ),
      ∃ a b, Keeps g g' (signalLoop W g g' s sigs).trace a b := by
  intro sigs
  induction sigs with
  | nil =>
    intro g g' s
    exact ⟨g, g', by simpa [signalLoop] using keeps_nil g g'⟩
  | cons sig sigs ih =>
    intro g g' s
    by_cases hsig : sig = Signal.SIGHUP
    · subst hsig
      rw [signalLoop_cons_SIGHUP]
      cases hn : (caseSIGHUP W g g' s).next with
      | none =>
        exact ⟨_, _, keeps_cons (fun R hR => hR) (keeps_caseSIGHUP W g g' s)⟩
      | some ab =>
        obtain ⟨a, b⟩ := ab
        have hab : a = g + 1 ∧ b = g' + 1 := by
          obtain ⟨e1, e2, hc⟩ := caseSIGHUP_shape W g g' s
          rcases hc with ⟨e3, hn', -⟩ | ⟨e3, hn', -⟩ | ⟨hn', -⟩ <;> simp_all
        obtain ⟨rfl, rfl⟩ := hab
        obtain ⟨a, b, hk⟩ := ih (g + 1) (g' + 1) (caseSIGHUP W g g' s).state
        exact ⟨a, b, keeps_append
          (keeps_cons (fun R hR => hR) (keeps_caseSIGHUP W g g' s)) hk⟩
    · rw [signalLoop_cons_of_ne W sig hsig]
      exact ⟨g + 1, g' + 1, keeps_cons (fun R hR => hR)
        (keeps_cons (fun R hR => onlyRunning_stop_panel _ hR)
          (keeps_cons (fun R hR => onlyRunning_stop_sub _ hR) (keeps_nil _ _)))⟩

/-- The five ways a run of `runWebServer` can go. -/
theorem runWebServer_shape (W : Servers σ) (s : σ) (sigs : List Signal) :
    (∃ m, (runWebServer W s sigs).trace = [Event.logPrintf, Event.logFatal m]) ∨
    (∃ l e, (runWebServer W s sigs).trace =
      [Event.logPrintf, Event.initLogger l, Event.initDB (some e), Event.logFatal e]) ∨
    (∃ l e, (runWebServer W s sigs).trace =
      [Event.logPrintf, Event.initLogger l, Event.initDB none,
       Event.newServer ⟨Kind.panel, 0⟩, Event.setWebServer ⟨Kind.panel, 0⟩,
       Event.start ⟨Kind.panel, 0⟩ (some e), Event.logPrintln e]) ∨
    (∃ l e, (runWebServer W s sigs).trace =
      [Event.logPrintf, Event.initLogger l, Event.initDB none,
       Event.newServer ⟨Kind.panel, 0⟩, Event.setWebServer ⟨Kind.panel, 0⟩,
       Event.start ⟨Kind.panel, 0⟩ none,
       Event.newServer ⟨Kind.subscription, 0⟩, Event.setSubServer ⟨Kind.subscription, 0⟩,
       Event.start ⟨Kind.subscription, 0⟩ (some e), Event.logPrintln e]) ∨
    (∃ l t, (runWebServer W s sigs).trace =
      [Event.logPrintf, Event.initLogger l, Event.initDB none,
       Event.newServer ⟨Kind.panel, 0⟩, Event.setWebServer ⟨Kind.panel, 0⟩,
       Event.start ⟨Kind.panel, 0⟩ none,
       Event.newServer ⟨Kind.subscription, 0⟩, Event.setSubServer ⟨Kind.subscription, 0⟩,
       Event.start ⟨Kind.subscription, 0⟩ none] ++ (signalLoop W 0 0 t sigs).trace) := by
  cases hl : W.getLogLevel with
  | unknown name =>
    exact Or.inl ⟨"unknown log level:", by simp [runWebServer, initLogLevel, hl]⟩
  | _ =>
    cases hdb : (W.initDB s).1 with
    | some e0 =>
      exact Or.inr (Or.inl ⟨W.getLogLevel, e0, by
        simp [runWebServer, initLogLevel, hl, hdb]⟩)
    | none =>
      cases h1 : (W.start ⟨Kind.panel, 0⟩ (W.initDB s).2).1 with
      | some e1 =>
        exact Or.inr (Or.inr (Or.inl ⟨W.getLogLevel, e1, by
          simp [runWebServer, initLogLevel, hl, hdb, h1]⟩))
      | none =>
        cases h2 : (W.start ⟨Kind.subscription, 0⟩
            (W.start ⟨Kind.panel, 0⟩ (W.initDB s).2).2).1 with
        | some e2 =>
          exact Or.inr (Or.inr (Or.inr (Or.inl ⟨W.getLogLevel, e2, by
            simp [runWebServer, initLogLevel, hl, hdb, h1, h2]⟩)))
        | none =>
          exact Or.inr (Or.inr (Or.inr (Or.inr ⟨W.getLogLevel,
            (W.start ⟨Kind.subscription, 0⟩
              (W.start ⟨Kind.panel, 0⟩ (W.initDB s).2).2).2, by
            simp [runWebServer, initLogLevel, hl, hdb, h1, h2]⟩)))

/-- The whole run keeps at most one handle of each kind running. -/
theorem keeps_runWebServer (W : Servers σ) (s : σ) (sigs : List Signal) :
    ∃ a b, Keeps 0 0 (runWebServer W s sigs).trace a b := by
  rcases runWebServer_shape W s sigs with ⟨m, ht⟩ | ⟨l, e, ht⟩ | ⟨l, e, ht⟩ | ⟨l, e, ht⟩ |
    ⟨l, t, ht⟩
  · rw [ht]
    exact ⟨0, 0, keeps_cons (fun R hR => hR) (keeps_cons (fun R hR => hR) (keeps_nil _ _))⟩
  · rw [ht]
    exact ⟨0, 0, keeps_cons (fun R hR => hR) (keeps_cons (fun R hR => hR)
      (keeps_cons (fun R hR => hR) (keeps_cons (fun R hR => hR) (keeps_nil _ _))))⟩
  · rw [ht]
    exact ⟨0, 0, keeps_cons (fun R hR => hR) (keeps_cons (fun R hR => hR)
      (keeps_cons (fun R hR => hR) (keeps_cons (fun R hR => hR)
        (keeps_cons (fun R hR => hR)
          (keeps_cons (fun R hR => onlyRunning_start_panel _ hR)
            (keeps_cons (fun R hR => hR) (keeps_nil _ _)))))))⟩
  · rw [ht]
    exact ⟨0, 0, keeps_cons (fun R hR => hR) (keeps_cons (fun R hR => hR)
      (keeps_cons (fun R hR => hR) (keeps_cons (fun R hR => hR)
        (keeps_cons (fun R hR => hR)
          (keeps_cons (fun R hR => onlyRunning_start_panel _ hR)
            (keeps_cons (fun R hR => hR) (keeps_cons (fun R hR => hR)
              (keeps_cons (fun R hR => onlyRunning_start_sub _ hR)
                (keeps_cons (fun R hR => hR) (keeps_nil _ _))))))))))⟩
  · rw [ht]
    obtain ⟨a, b, hk⟩ := keeps_signalLoop W sigs 0 0 t
    exact ⟨a, b, keeps_append
      (keeps_cons (fun R hR => hR) (keeps_cons (fun R hR => hR)
        (keeps_cons (fun R hR => hR) (keeps_cons (fun R hR => hR)
          (keeps_cons (fun R hR => hR)
            (keeps_cons (fun R hR => onlyRunning_start_panel _ hR)
              (keeps_cons (fun R hR => hR) (keeps_cons (fun R hR => hR)
                (keeps_cons (fun R hR => onlyRunning_start_sub _ hR)
                  (keeps_nil _ _)))))))))) hk⟩

/-- Where an element sits in a concatenation: in the first part, or in the second. -/
theorem append_eq_split {A B pre post : List Event} {x : Event}
    (h : A ++ B = pre ++ x :: post) :
    (∃ a', A = pre ++ x :: a') ∨ (∃ c, pre = A ++ c ∧ B = c ++ x :: post) := by
  rcases List.append_eq_append_iff.1 h with ⟨a', h1, h2⟩ | ⟨c', h1, h2⟩
  · exact Or.inr ⟨a', h1, h2⟩
  · cases c' with
    | nil => exact Or.inr ⟨[], by simpa using h1.symm, by simpa using h2.symm⟩
    | cons y c'' =>
      rw [List.cons_append] at h2
      obtain ⟨rfl, -⟩ := List.cons.inj h2
      exact Or.inl ⟨c'', h1⟩

/-- In the reload branch, the `Start` of a new handle comes after the `Stop` of the
handle it replaces. -/
theorem caseSIGHUP_start_preceded (W : Servers σ) (g g' : Nat) (s : σ)
    (pre post : List Event) (k : Kind) (i : Nat) (e : GoError)
    (hsplit : (caseSIGHUP W g g' s).trace = pre ++ Event.start ⟨k, i + 1⟩ e :: post) :
    ∃ e', Event.stop ⟨k, i⟩ e' ∈ pre := by
  obtain ⟨e1, e2, hc⟩ := caseSIGHUP_shape W g g' s
  have hm : Event.start ⟨k, i + 1⟩ e ∈ (caseSIGHUP W g g' s).trace := by
    rw [hsplit]; simp
  have hki := mem_caseSIGHUP_start W g g' s _ e hm
  have hpre : ∃ c, pre = reloadStops g g' e1 e2 ++ c := by
    rcases hc with ⟨e3, -, ht⟩ | ⟨e3, -, ht⟩ | ⟨-, ht⟩ <;>
    · rw [ht] at hsplit
      rcases append_eq_split hsplit with ⟨a', ha⟩ | ⟨c, hc1, -⟩
      · exact absurd (ha ▸ (by simp : Event.start ⟨k, i + 1⟩ e ∈
          pre ++ Event.start ⟨k, i + 1⟩ e :: a')) (not_mem_reloadStops_start _ _ _ _ _ _)
      · exact ⟨c, hc1⟩
  obtain ⟨c, rfl⟩ := hpre
  rcases hki with hh | hh
  · obtain ⟨rfl, rfl⟩ : k = Kind.panel ∧ i = g := by simpa using hh
    exact ⟨e1, by cases e1 <;> cases e2 <;> simp [reloadStops, warnStop]⟩
  · obtain ⟨rfl, rfl⟩ : k = Kind.subscription ∧ i = g' := by simpa using hh
    exact ⟨e2, by cases e1 <;> cases e2 <;> simp [reloadStops, warnStop]⟩

/-- In the loop, the `Start` of a new handle comes after the `Stop` of the handle it
replaces. -/
theorem signalLoop_start_preceded (W : Servers σ) :
    ∀ (sigs : List Signal) (g g' : Nat) (s : σ) (pre post : List Event) (k : Kind)
      (i : Nat) (e : GoError),
      (signalLoop W g g' s sigs).trace = pre ++ Event.start ⟨k, i + 1⟩ e :: post →
      ∃ e', Event.stop ⟨k, i⟩ e' ∈ pre := by
  intro sigs
  induction sigs with
  | nil =>
    intro g g' s pre post k i e hsplit
    simp [signalLoop] at hsplit
  | cons sig sigs ih =>
    intro g g' s pre post k i e hsplit
    by_cases hsig : sig = Signal.SIGHUP
    · subst hsig
      rw [signalLoop_cons_SIGHUP] at hsplit
      have hfirst : ∀ a', Event.recv Signal.SIGHUP :: (caseSIGHUP W g g' s).trace =
          pre ++ Event.start ⟨k, i + 1⟩ e :: a' → ∃ e', Event.stop ⟨k, i⟩ e' ∈ pre := by
        intro a' ha
        cases pre with
        | nil => simp at ha
        | cons y pre' =>
          rw [List.cons_append] at ha
          obtain ⟨-, ha'⟩ := List.cons.inj ha
          obtain ⟨e', he'⟩ := caseSIGHUP_start_preceded W g g' s pre' a' k i e ha'
          exact ⟨e', List.mem_cons_of_mem _ he'⟩
      cases hn : (caseSIGHUP W g g' s).next with
      | none =>
        rw [hn] at hsplit
        exact hfirst post hsplit
      | some ab =>
        obtain ⟨a, b⟩ := ab
        rw [hn] at hsplit
        rcases append_eq_split hsplit with ⟨a', ha⟩ | ⟨c, hc1, hc2⟩
        · exact hfirst a' ha
        · obtain ⟨e', he'⟩ := ih _ _ _ _ _ _ _ _ hc2
          exact ⟨e', by rw [hc1]; exact List.mem_append_right _ he'⟩
    · rw [signalLoop_cons_of_ne W sig hsig] at hsplit
      have hm : Event.start ⟨k, i + 1⟩ e ∈
          Event.recv sig :: (caseDefault W g g' s).trace := by
        rw [show (Event.recv sig :: (caseDefault W g g' s).trace) = _ from hsplit]; simp
      simp [caseDefault] at hm

/-- C6. In every run of `runWebServer`, for every signal sequence, every log level and
every result of `InitDB`, `Start` and `Stop`: each `Start` call on a replacement handle
(generation `i + 1` of a kind) is preceded in the trace by a `Stop` call on the previous
handle of that kind (generation `i`); and after every prefix of the trace at most one
handle of each kind has had `Start` called on it with no `Stop` call after. -/
theorem C6_one_running_per_kind (W : Servers σ) (s : σ) (sigs : List Signal) :
    (∀ pre post k i e,
      (runWebServer W s sigs).trace = pre ++ Event.start ⟨k, i + 1⟩ e :: post →
      ∃ e', Event.stop ⟨k, i⟩ e' ∈ pre) ∧
    (∀ pre, pre <+: (runWebServer W s sigs).trace → AtMostOnePerKind (running pre)) := by
  constructor
  · intro pre post k i e hsplit
    have hm : Event.start ⟨k, i + 1⟩ e ∈ (runWebServer W s sigs).trace := by
      rw [hsplit]; simp
    rcases runWebServer_shape W s sigs with ⟨m, ht⟩ | ⟨l, e0, ht⟩ | ⟨l, e0, ht⟩ |
      ⟨l, e0, ht⟩ | ⟨l, t, ht⟩
    · simp [ht] at hm
    · simp [ht] at hm
    · simp [ht] at hm
    · simp [ht] at hm
    · rw [ht] at hsplit
      rcases append_eq_split hsplit with ⟨a', ha⟩ | ⟨c, hc1, hc2⟩
      · have hm' : Event.start ⟨k, i + 1⟩ e ∈ pre ++ Event.start ⟨k, i + 1⟩ e :: a' := by
          simp
        rw [← ha] at hm'
        simp at hm'
      · obtain ⟨e', he'⟩ := signalLoop_start_preceded W sigs 0 0 t c post k i e hc2
        exact ⟨e', by rw [hc1]; exact List.mem_append_right _ he'⟩
  · intro pre hpre
    obtain ⟨a, b, hk⟩ := keeps_runWebServer W s sigs
    exact (hk (fun _ => false) (fun h hh => by cases hh)).1 pre hpre

/-- C6 at one reload followed by `SIGTERM`, every call succeeding: at the end of the run
at most one handle of each kind is running, and the `Start` of panel generation 1 comes
after the `Stop` of panel generation 0. -/
theorem C6_one_running_per_kind_witness :
    AtMostOnePerKind (running (runWebServer allOk () [Signal.SIGHUP, Signal.SIGTERM]).trace) ∧
    ∃ e', Event.stop ⟨Kind.panel, 0⟩ e' ∈
      [Event.logPrintf, Event.initLogger LogLevel.Info, Event.initDB none,
       Event.newServer ⟨Kind.panel, 0⟩, Event.setWebServer ⟨Kind.panel, 0⟩,
       Event.start ⟨Kind.panel, 0⟩ none,
       Event.newServer ⟨Kind.subscription, 0⟩, Event.setSubServer ⟨Kind.subscription, 0⟩,
       Event.start ⟨Kind.subscription, 0⟩ none,
       Event.recv Signal.SIGHUP,
       Event.stop ⟨Kind.panel, 0⟩ none, Event.stop ⟨Kind.subscription, 0⟩ none,
       Event.newServer ⟨Kind.panel, 1⟩, Event.setWebServer ⟨Kind.panel, 1⟩] :=
  have h := C6_one_running_per_kind allOk () [Signal.SIGHUP, Signal.SIGTERM]
  ⟨h.2 _ (List.prefix_refl _),
   h.1 _ [Event.newServer ⟨Kind.subscription, 1⟩, Event.setSubServer ⟨Kind.subscription, 1⟩,
          Event.start ⟨Kind.subscription, 1⟩ none, Event.recv Signal.SIGTERM,
          Event.stop ⟨Kind.panel, 1⟩ none, Event.stop ⟨Kind.subscription, 1⟩ none]
     Kind.panel 0 none (by decide)⟩

/-- C2, refuted as stated: in the run with one reload and every call succeeding, the
calls are `Start` of both boot handles, then `Stop` old panel, `Stop` old subscription,
`Start` new panel, `Start` new subscription.  The `Stop` of the old subscription handle
lies between the `Stop` of the old panel handle and the `Start` of the new one, and the
calls of the reload are not the sequence the claim gives. -/
theorem C2_counterexample :
    calls (runWebServer allOk () [Signal.SIGHUP]).trace =
      [Call.start ⟨Kind.panel, 0⟩, Call.start ⟨Kind.subscription, 0⟩,
       Call.stop ⟨Kind.panel, 0⟩, Call.stop ⟨Kind.subscription, 0⟩,
       Call.start ⟨Kind.panel, 1⟩, Call.start ⟨Kind.subscription, 1⟩] ∧
    calls (caseSIGHUP allOk 0 0 ()).trace ≠
      [Call.stop ⟨Kind.panel, 0⟩, Call.start ⟨Kind.panel, 1⟩,
       Call.stop ⟨Kind.subscription, 0⟩, Call.start ⟨Kind.subscription, 1⟩] := by
  decide

/-- C2, amended. A reload is handled by the `SIGHUP` case, and when every `Start` succeeds
its calls are, in order: `Stop` old panel handle, `Stop` old subscription handle, `Start`
new panel handle, `Start` new subscription handle, whatever the `Stop` calls return. -/
theorem C2_reload_order (W : Servers σ) (g g' : Nat) (s : σ) (sigs : List Signal)
    (hstart : ∀ h t, (W.start h t).1 = none) :
    (signalLoop W g g' s (Signal.SIGHUP :: sigs)).trace =
      Event.recv Signal.SIGHUP :: (caseSIGHUP W g g' s).trace ++
        (signalLoop W (g + 1) (g' + 1) (caseSIGHUP W g g' s).state sigs).trace ∧
    calls (caseSIGHUP W g g' s).trace =
      [Call.stop ⟨Kind.panel, g⟩, Call.stop ⟨Kind.subscription, g'⟩,
       Call.start ⟨Kind.panel, g + 1⟩, Call.start ⟨Kind.subscription, g' + 1⟩] := by
  constructor
  · rw [signalLoop_cons_SIGHUP, (caseSIGHUP_of_start_ok W hstart g g' s).1]
  · cases h1 : (W.stop ⟨Kind.panel, g⟩ s).1 <;>
    cases h2 : (W.stop ⟨Kind.subscription, g'⟩ (W.stop ⟨Kind.panel, g⟩ s).2).1 <;>
    simp [caseSIGHUP, hstart, h1, h2, warnStop, calls, Event.call?]

/-- C2 amended, at the first reload with every call succeeding. -/
theorem C2_reload_order_witness :
    calls (caseSIGHUP allOk 0 0 ()).trace =
      [Call.stop ⟨Kind.panel, 0⟩, Call.stop ⟨Kind.subscription, 0⟩,
       Call.start ⟨Kind.panel, 1⟩, Call.start ⟨Kind.subscription, 1⟩] :=
  (C2_reload_order allOk 0 0 () [] (fun _ _ => rfl)).2

/-- C3. If the boot reaches the servers (known log level, database opened) and the `Start`
of the panel handle fails, or the `Start` of the subscription handle fails, then
`runWebServer` returns, its trace has no receive from `sigCh` and no `Stop` call; and
when it is the panel `Start` that fails, no subscription handle is constructed, published
or started. -/
theorem C3_boot_start_failure (W : Servers σ) (s : σ) (sigs : List Signal)
    (hlog : ∀ name, W.getLogLevel ≠ LogLevel.unknown name)
    (hdb : (W.initDB s).1 = none)
    (hfail : (W.start ⟨Kind.panel, 0⟩ (W.initDB s).2).1 ≠ none ∨
      (W.start ⟨Kind.subscription, 0⟩ (W.start ⟨Kind.panel, 0⟩ (W.initDB s).2).2).1 ≠ none) :
    (runWebServer W s sigs).exit = Exit.returned ∧
    (∀ sig, Event.recv sig ∉ (runWebServer W s sigs).trace) ∧
    (∀ h e, Event.stop h e ∉ (runWebServer W s sigs).trace) ∧
    ((W.start ⟨Kind.panel, 0⟩ (W.initDB s).2).1 ≠ none →
      ∀ g e, Event.newServer ⟨Kind.subscription, g⟩ ∉ (runWebServer W s sigs).trace ∧
        Event.setSubServer ⟨Kind.subscription, g⟩ ∉ (runWebServer W s sigs).trace ∧
        Event.start ⟨Kind.subscription, g⟩ e ∉ (runWebServer W s sigs).trace) := by
  cases hl : W.getLogLevel with
  | unknown name => exact absurd hl (hlog name)
  | _ =>
    cases h1 : (W.start ⟨Kind.panel, 0⟩ (W.initDB s).2).1 <;>
    cases h2 : (W.start ⟨Kind.subscription, 0⟩
      (W.start ⟨Kind.panel, 0⟩ (W.initDB s).2).2).1 <;>
    simp_all [runWebServer, initLogLevel]

/-- C3 at a boot whose subscription `Start` fails. -/
theorem C3_boot_start_failure_witness :
    (runWebServer subStartFails () [Signal.SIGHUP, Signal.SIGTERM]).exit = Exit.returned ∧
    (∀ sig, Event.recv sig ∉
      (runWebServer subStartFails () [Signal.SIGHUP, Signal.SIGTERM]).trace) ∧
    (∀ h e, Event.stop h e ∉
      (runWebServer subStartFails () [Signal.SIGHUP, Signal.SIGTERM]).trace) :=
  have h := C3_boot_start_failure subStartFails () [Signal.SIGHUP, Signal.SIGTERM]
    (by intro name; simp [subStartFails]) rfl (Or.inr (by decide))
  ⟨h.1, h.2.1, h.2.2.1⟩

/-- C5, refuted as stated: in a boot whose panel `Start` fails, `SetWebServer` has
already been called on the panel handle, before that `Start`. -/
theorem C5_counterexample :
    (runWebServer panelStartFails () []).trace =
      [Event.logPrintf, Event.initLogger LogLevel.Info, Event.initDB none,
       Event.newServer ⟨Kind.panel, 0⟩, Event.setWebServer ⟨Kind.panel, 0⟩,
       Event.start ⟨Kind.panel, 0⟩ (some "listen tcp :2053: bind: address already in use"),
       Event.logPrintln "listen tcp :2053: bind: address already in use"] ∧
    published (runWebServer panelStartFails () []).trace = [⟨Kind.panel, 0⟩] := by
  decide

/-- C5, amended. During the boot (known log level, database opened) each handle is
written to the Global Registry right after it is constructed and before its `Start` is
called, whatever that `Start` returns.  So when the panel `Start` fails the panel slot
has been written and the subscription slot has not; when the panel `Start` succeeds and
the subscription `Start` fails both slots have been written. -/
theorem C5_publish_before_start (W : Servers σ) (s : σ) (sigs : List Signal)
    (hlog : ∀ name, W.getLogLevel ≠ LogLevel.unknown name)
    (hdb : (W.initDB s).1 = none) :
    (∀ e, (W.start ⟨Kind.panel, 0⟩ (W.initDB s).2).1 = some e →
      (runWebServer W s sigs).trace =
        [Event.logPrintf, Event.initLogger W.getLogLevel, Event.initDB none,
         Event.newServer ⟨Kind.panel, 0⟩, Event.setWebServer ⟨Kind.panel, 0⟩,
         Event.start ⟨Kind.panel, 0⟩ (some e), Event.logPrintln e] ∧
      published (runWebServer W s sigs).trace = [⟨Kind.panel, 0⟩]) ∧
    (∀ e, (W.start ⟨Kind.panel, 0⟩ (W.initDB s).2).1 = none →
      (W.start ⟨Kind.subscription, 0⟩
        (W.start ⟨Kind.panel, 0⟩ (W.initDB s).2).2).1 = some e →
      (runWebServer W s sigs).trace =
        [Event.logPrintf, Event.initLogger W.getLogLevel, Event.initDB none,
         Event.newServer ⟨Kind.panel, 0⟩, Event.setWebServer ⟨Kind.panel, 0⟩,
         Event.start ⟨Kind.panel, 0⟩ none,
         Event.newServer ⟨Kind.subscription, 0⟩, Event.setSubServer ⟨Kind.subscription, 0⟩,
         Event.start ⟨Kind.subscription, 0⟩ (some e), Event.logPrintln e] ∧
      published (runWebServer W s sigs).trace =
        [⟨Kind.panel, 0⟩, ⟨Kind.subscription, 0⟩]) := by
  cases hl : W.getLogLevel with
  | unknown name => exact absurd hl (hlog name)
  | _ =>
    constructor
    · intro e h1
      simp [runWebServer, initLogLevel, hl, hdb, h1, published]
    · intro e h1 h2
      simp [runWebServer, initLogLevel, hl, hdb, h1, h2, published]

/-- C5 amended, at a boot whose subscription `Start` fails. -/
theorem C5_publish_before_start_witness :
    published (runWebServer subStartFails () []).trace =
      [⟨Kind.panel, 0⟩, ⟨Kind.subscription, 0⟩] :=
  ((C5_publish_before_start subStartFails () []
    (by intro name; simp [subStartFails]) rfl).2
      "listen tcp :2096: bind: address already in use" (by decide) (by decide)).2

/-- C4. If a `Start` fails (in particular the `Start` of the new panel handle or of the
new subscription handle while a reload is handled), `runWebServer` returns at once: the
failed `Start` is followed in the trace by its log line only, so no further signal is
read and no further `Start` or `Stop` is called.  And in the whole trace no `Start` is
called on a handle after a `Stop` was called on that handle: the stopped old handle is
never restarted. -/
theorem C4_reload_start_failure (W : Servers σ) (s : σ) (sigs : List Signal)
    (pre post : List Event) (h : Handle) (e : String)
    (hsplit : (runWebServer W s sigs).trace = pre ++ Event.start h (some e) :: post) :
    (runWebServer W s sigs).exit = Exit.returned ∧
    post = [Event.logPrintln e] ∧
    received post = [] ∧
    calls post = [] ∧
    (runWebServer W s sigs).trace.Pairwise (fun a b => ¬ IsRestart a b) := by
  have hsuf : (Event.start h (some e) :: post) <:+ (runWebServer W s sigs).trace :=
    ⟨pre, hsplit.symm⟩
  have main : (runWebServer W s sigs).exit = Exit.returned ∧ post = [Event.logPrintln e] ∧
      (runWebServer W s sigs).trace.Pairwise (fun a b => ¬ IsRestart a b) := by
    cases hl : W.getLogLevel with
    | unknown name =>
      simp [runWebServer, initLogLevel, hl, List.suffix_cons_iff] at hsuf
    | _ =>
      cases hdb : (W.initDB s).1 with
      | some e0 =>
        simp [runWebServer, initLogLevel, hl, hdb, List.suffix_cons_iff] at hsuf
      | none =>
        cases h1 : (W.start ⟨Kind.panel, 0⟩ (W.initDB s).2).1 with
        | some e1 =>
          simp [runWebServer, initLogLevel, hl, hdb, h1, List.suffix_cons_iff] at hsuf
          obtain ⟨⟨-, rfl⟩, rfl⟩ := hsuf
          simp [runWebServer, initLogLevel, hl, hdb, h1, IsRestart]
        | none =>
          cases h2 : (W.start ⟨Kind.subscription, 0⟩
              (W.start ⟨Kind.panel, 0⟩ (W.initDB s).2).2).1 with
          | some e2 =>
            simp [runWebServer, initLogLevel, hl, hdb, h1, h2, List.suffix_cons_iff] at hsuf
            obtain ⟨⟨-, rfl⟩, rfl⟩ := hsuf
            simp [runWebServer, initLogLevel, hl, hdb, h1, h2, IsRestart]
          | none =>
            obtain ⟨t, hexit, htrace⟩ := runWebServer_of_boot_ok W s sigs
              (by intro name hname; rw [hl] at hname; cases hname) hdb h1 h2
            rw [htrace] at hsuf
            have h3 := failed_suffix_append _ _ (by simp) h e post hsuf
            obtain ⟨hpost, hret⟩ := signalLoop_failed_start W sigs 0 0 t h e post h3
            refine ⟨hexit.trans hret, hpost, ?_⟩
            rw [htrace, List.pairwise_append]
            refine ⟨?_, signalLoop_no_restart W sigs 0 0 t, ?_⟩
            · simp [IsRestart]
            · rintro a ha b - ⟨h', e', e'', rfl, -⟩
              simp at ha
  obtain ⟨m1, m2, m3⟩ := main
  refine ⟨m1, m2, ?_, ?_, m3⟩ <;> simp [m2, received, calls, Event.call?]

/-- C4 at a run whose boot succeeds and whose first reload fails to start the new
subscription server. -/
theorem C4_reload_start_failure_witness :
    (runWebServer reloadStartFails () [Signal.SIGHUP, Signal.SIGHUP, Signal.SIGTERM]).exit
      = Exit.returned ∧
    received (runWebServer reloadStartFails ()
      [Signal.SIGHUP, Signal.SIGHUP, Signal.SIGTERM]).trace = [Signal.SIGHUP] ∧
    (runWebServer reloadStartFails ()
      [Signal.SIGHUP, Signal.SIGHUP, Signal.SIGTERM]).trace.Pairwise
        (fun a b => ¬ IsRestart a b) :=
  have h := C4_reload_start_failure reloadStartFails ()
    [Signal.SIGHUP, Signal.SIGHUP, Signal.SIGTERM]
    [Event.logPrintf, Event.initLogger LogLevel.Info, Event.initDB none,
     Event.newServer ⟨Kind.panel, 0⟩, Event.setWebServer ⟨Kind.panel, 0⟩,
     Event.start ⟨Kind.panel, 0⟩ none,
     Event.newServer ⟨Kind.subscription, 0⟩, Event.setSubServer ⟨Kind.subscription, 0⟩,
     Event.start ⟨Kind.subscription, 0⟩ none,
     Event.recv Signal.SIGHUP,
     Event.stop ⟨Kind.panel, 0⟩ none, Event.stop ⟨Kind.subscription, 0⟩ none,
     Event.newServer ⟨Kind.panel, 1⟩, Event.setWebServer ⟨Kind.panel, 1⟩,
     Event.start ⟨Kind.panel, 1⟩ none,
     Event.newServer ⟨Kind.subscription, 1⟩, Event.setSubServer ⟨Kind.subscription, 1⟩]
    [Event.logPrintln "address already in use"]
    ⟨Kind.subscription, 1⟩ "address already in use" (by decide)
  ⟨h.1, by decide, h.2.2.2.2⟩

end Supervisor

section Admin

variable {σ : Type}

/-- The Go test `len(s) > 0` holds exactly of the non-empty strings. -/
theorem utf8ByteSize_pos_iff (s : String) : 0 < s.utf8ByteSize ↔ s ≠ "" := by
  rcases s with ⟨l⟩
  cases l with
  | nil => simp [String.utf8ByteSize, String.utf8ByteSize.go]
  | cons c cs =>
    simp [String.utf8ByteSize, String.utf8ByteSize.go]
    constructor
    · intro _ h
      have := congrArg String.data h
      simp at this
    · intro _
      have := Char.utf8Size_pos c
      omega

theorem colon_append_ne (t : String) : ":" ++ t ≠ "" := by
  intro h
  have := congrArg String.length h
  simp at this
  exact absurd this.1 (by decide)

/-- C7. With the database opened: when exactly one of `publicKey`, `privateKey` is
non-empty, `updateCert` calls neither `SetCertFile` nor `SetKeyFile`, leaves the external
state as `InitDB` left it, and its only output is the line "both public and private key
should be entered."; and `SetCertFile publicKey` and `SetKeyFile privateKey` are both
called if and only if both arguments are non-empty or both are empty. -/
theorem C7_updateCert_both_or_neither (W : Services σ) (s : σ)
    (publicKey privateKey : String) (hdb : (W.initDB s).1 = none) :
    (((publicKey ≠ "" ∧ privateKey = "") ∨ (publicKey = "" ∧ privateKey ≠ "")) →
      (updateCert W publicKey privateKey s).trace =
        [AdminEvent.initDB,
         AdminEvent.stdout "both public and private key should be entered.\n"] ∧
      (updateCert W publicKey privateKey s).state = (W.initDB s).2 ∧
      ∀ v, AdminEvent.setCertFile v ∉ (updateCert W publicKey privateKey s).trace ∧
        AdminEvent.setKeyFile v ∉ (updateCert W publicKey privateKey s).trace) ∧
    ((AdminEvent.setCertFile publicKey ∈ (updateCert W publicKey privateKey s).trace ∧
      AdminEvent.setKeyFile privateKey ∈ (updateCert W publicKey privateKey s).trace) ↔
      ((publicKey ≠ "" ∧ privateKey ≠ "") ∨ (publicKey = "" ∧ privateKey = ""))) := by
  by_cases hpub : publicKey = "" <;> by_cases hpriv : privateKey = "" <;>
    simp [updateCert, hdb, hpub, hpriv, println]

/-- C7 at `cert -webCert /etc/cert.pem` with no `-webCertKey`. -/
theorem C7_updateCert_both_or_neither_witness :
    (updateCert (storeServices []) "/etc/cert.pem" "" freshStore).trace =
      [AdminEvent.initDB,
       AdminEvent.stdout "both public and private key should be entered.\n"] ∧
    (updateCert (storeServices []) "/etc/cert.pem" "" freshStore).state = freshStore :=
  have h := (C7_updateCert_both_or_neither (storeServices []) freshStore
    "/etc/cert.pem" "" rfl).1 (Or.inl ⟨by decide, rfl⟩)
  ⟨h.1, h.2.1⟩

/-- The calls and the state of the three blocks of `updateSetting`. -/
theorem settingPort_trace (W : Services σ) (port : Int) (s : σ) :
    (settingPort W port s).trace =
      if port > 0 then
        [AdminEvent.setPort port,
         AdminEvent.stdout
           (match (W.setPort port s).1 with
            | some e => "Failed to set port: " ++ e ++ "\n"
            | none => "Port set successfully: " ++ toString port ++ "\n")]
      else [] := by
  unfold settingPort
  split
  · cases h : (W.setPort port s).1 <;> simp [h, println]
  · rfl

theorem settingPort_state (W : Services σ) (port : Int) (s : σ) :
    (settingPort W port s).state = if port > 0 then (W.setPort port s).2 else s := by
  unfold settingPort
  split
  · cases h : (W.setPort port s).1 <;> simp [h]
  · rfl

theorem settingUser_trace (W : Services σ) (username password : String) (s : σ) :
    (settingUser W username password s).trace =
      if username ≠ "" ∨ password ≠ "" then
        [AdminEvent.updateFirstUser username password,
         AdminEvent.stdout
           (match (W.updateFirstUser username password s).1 with
            | some e => "Failed to update username and password: " ++ e ++ "\n"
            | none => "Username and password updated successfully\n")]
      else [] := by
  unfold settingUser
  split
  · cases h : (W.updateFirstUser username password s).1 <;> simp [h, println]
  · rfl

theorem settingBasePath_trace (W : Services σ) (webBasePath : String) (s : σ) :
    (settingBasePath W webBasePath s).trace =
      if webBasePath ≠ "" then
        [AdminEvent.setBasePath webBasePath,
         AdminEvent.stdout
           (match (W.setBasePath webBasePath s).1 with
            | some e => "Failed to set base URI path: " ++ e ++ "\n"
            | none => "Base URI path set successfully\n")]
      else [] := by
  unfold settingBasePath
  split
  · cases h : (W.setBasePath webBasePath s).1 <;> simp [h, println]
  · rfl

theorem updateSetting_trace (W : Services σ) (s : σ) (port : Int)
    (username password webBasePath : String) (hdb : (W.initDB s).1 = none) :
    (updateSetting W port username password webBasePath s).trace =
      AdminEvent.initDB ::
        ((settingPort W port (W.initDB s).2).trace ++
         (settingUser W username password (settingPort W port (W.initDB s).2).state).trace ++
         (settingBasePath W webBasePath
           (settingUser W username password
             (settingPort W port (W.initDB s).2).state).state).trace) := by
  simp [updateSetting, hdb]

/-- C8. With the database opened, each of the three updates of `updateSetting` is
attempted exactly when its own flag condition holds, whatever the other updates return:
`SetPort` iff `port > 0`, `UpdateFirstUser` iff the user name or the password is
non-empty, `SetBasePath` iff the base path is non-empty.  For `port > 0` and a non-empty
user name the trace begins with `SetPort port`, the port message (failure or success),
`UpdateFirstUser username password` and its own message (failure or success): when
`SetPort` fails, `UpdateFirstUser` is still called and reported separately. -/
theorem C8_updateSetting_independent (W : Services σ) (s : σ) (port : Int)
    (username password webBasePath : String) (hdb : (W.initDB s).1 = none) :
    (∀ p, AdminEvent.setPort p ∈
        (updateSetting W port username password webBasePath s).trace ↔
      (p = port ∧ port > 0)) ∧
    (∀ u w, AdminEvent.updateFirstUser u w ∈
        (updateSetting W port username password webBasePath s).trace ↔
      ((u = username ∧ w = password) ∧ (username ≠ "" ∨ password ≠ ""))) ∧
    (∀ b, AdminEvent.setBasePath b ∈
        (updateSetting W port username password webBasePath s).trace ↔
      (b = webBasePath ∧ webBasePath ≠ "")) ∧
    (port > 0 → username ≠ "" →
      ∃ rest, (updateSetting W port username password webBasePath s).trace =
        [AdminEvent.initDB,
         AdminEvent.setPort port,
         AdminEvent.stdout
           (match (W.setPort port (W.initDB s).2).1 with
            | some e => "Failed to set port: " ++ e ++ "\n"
            | none => "Port set successfully: " ++ toString port ++ "\n"),
         AdminEvent.updateFirstUser username password,
         AdminEvent.stdout
           (match (W.updateFirstUser username password
                    (W.setPort port (W.initDB s).2).2).1 with
            | some e => "Failed to update username and password: " ++ e ++ "\n"
            | none => "Username and password updated successfully\n")] ++ rest) := by
  rw [updateSetting_trace W s port username password webBasePath hdb,
    settingPort_trace, settingUser_trace, settingBasePath_trace, settingPort_state]
  refine ⟨?_, ?_, ?_, ?_⟩
  · intro p
    by_cases h1 : port > 0 <;> by_cases h2 : username ≠ "" ∨ password ≠ "" <;>
      by_cases h3 : webBasePath ≠ "" <;> simp [h1, h2, h3]
  · intro u w
    by_cases h1 : port > 0 <;> by_cases h2 : username ≠ "" ∨ password ≠ "" <;>
      by_cases h3 : webBasePath ≠ "" <;> simp [h1, h2, h3]
  · intro b
    by_cases h1 : port > 0 <;> by_cases h2 : username ≠ "" ∨ password ≠ "" <;>
      by_cases h3 : webBasePath ≠ "" <;> simp [h1, h2, h3]
  · intro h1 h2
    refine ⟨if webBasePath ≠ "" then
        [AdminEvent.setBasePath webBasePath,
         AdminEvent.stdout
           (match (W.setBasePath webBasePath
              (settingUser W username password (W.setPort port (W.initDB s).2).2).state).1 with
            | some e => "Failed to set base URI path: " ++ e ++ "\n"
            | none => "Base URI path set successfully\n")]
      else [], ?_⟩
    simp [h1, h2]

/-- C8 at `setting -port 9999 -username admin` when `SetPort` fails: both updates are
attempted. -/
theorem C8_updateSetting_independent_witness :
    (storeServices ["SetPort"]).setPort 9999 freshStore
      = (some "database is locked", freshStore) ∧
    AdminEvent.setPort 9999 ∈
      (updateSetting (storeServices ["SetPort"]) 9999 "admin" "" "" freshStore).trace ∧
    AdminEvent.updateFirstUser "admin" "" ∈
      (updateSetting (storeServices ["SetPort"]) 9999 "admin" "" "" freshStore).trace :=
  have h := C8_updateSetting_independent (storeServices ["SetPort"]) freshStore
    9999 "admin" "" "" rfl
  ⟨by decide, (h.1 9999).2 ⟨rfl, by decide⟩,
   (h.2.1 "admin" "").2 ⟨⟨rfl, rfl⟩, Or.inl (by decide)⟩⟩

/-- C9, refuted as stated: with token, runtime and chat id all given and `SetTgBotToken`
returning an error, `updateTgbotSetting` prints the error and returns; neither
`SetTgbotRuntime` nor `SetTgBotChatId` is attempted. -/
theorem C9_counterexample :
    (updateTgbotSetting (storeServices ["SetTgBotToken"]) "123:abc" "42" "@daily"
        freshStore).trace =
      [AdminEvent.initDB, AdminEvent.setTgBotToken "123:abc",
       AdminEvent.stdout "database is locked\n"] ∧
    AdminEvent.setTgbotRuntime "@daily" ∉
      (updateTgbotSetting (storeServices ["SetTgBotToken"]) "123:abc" "42" "@daily"
        freshStore).trace ∧
    AdminEvent.setTgBotChatId "42" ∉
      (updateTgbotSetting (storeServices ["SetTgBotToken"]) "123:abc" "42" "@daily"
        freshStore).trace := by
  decide

/-- C9, amended. With the database opened and token, runtime and chat id all non-empty,
`updateTgbotSetting` attempts the fields in the order token, runtime, chat id and returns
at the first update that returns an error, after printing that error: when
`SetTgBotToken` fails nothing else is attempted; when it succeeds and `SetTgbotRuntime`
fails, `SetTgBotChatId` is not attempted; when both succeed `SetTgBotChatId` is attempted
and reported.  The external state is the one left by the last update attempted, so the
updates made before a failure stay made. -/
theorem C9_updateTgbotSetting_first_error (W : Services σ) (s : σ)
    (tgBotToken tgBotChatid tgBotRuntime : String) (hdb : (W.initDB s).1 = none)
    (htoken : tgBotToken ≠ "") (hruntime : tgBotRuntime ≠ "") (hchat : tgBotChatid ≠ "") :
    (∀ e, (W.setTgBotToken tgBotToken (W.initDB s).2).1 = some e →
      (updateTgbotSetting W tgBotToken tgBotChatid tgBotRuntime s).trace =
        [AdminEvent.initDB, AdminEvent.setTgBotToken tgBotToken,
         AdminEvent.stdout (e ++ "\n")] ∧
      (updateTgbotSetting W tgBotToken tgBotChatid tgBotRuntime s).state =
        (W.setTgBotToken tgBotToken (W.initDB s).2).2) ∧
    ((W.setTgBotToken tgBotToken (W.initDB s).2).1 = none →
      ∀ e, (W.setTgbotRuntime tgBotRuntime
              (W.setTgBotToken tgBotToken (W.initDB s).2).2).1 = some e →
      (updateTgbotSetting W tgBotToken tgBotChatid tgBotRuntime s).trace =
        [AdminEvent.initDB, AdminEvent.setTgBotToken tgBotToken,
         AdminEvent.loggerInfo "updateTgbotSetting tgBotToken success",
         AdminEvent.setTgbotRuntime tgBotRuntime,
         AdminEvent.stdout (e ++ "\n")] ∧
      (updateTgbotSetting W tgBotToken tgBotChatid tgBotRuntime s).state =
        (W.setTgbotRuntime tgBotRuntime
          (W.setTgBotToken tgBotToken (W.initDB s).2).2).2) ∧
    ((W.setTgBotToken tgBotToken (W.initDB s).2).1 = none →
      (W.setTgbotRuntime tgBotRuntime
        (W.setTgBotToken tgBotToken (W.initDB s).2).2).1 = none →
      (updateTgbotSetting W tgBotToken tgBotChatid tgBotRuntime s).trace =
        [AdminEvent.initDB, AdminEvent.setTgBotToken tgBotToken,
         AdminEvent.loggerInfo "updateTgbotSetting tgBotToken success",
         AdminEvent.setTgbotRuntime tgBotRuntime,
         AdminEvent.loggerInfo
           ("updateTgbotSetting tgBotRuntime[" ++ tgBotRuntime ++ "] success"),
         AdminEvent.setTgBotChatId tgBotChatid,
         (match (W.setTgBotChatId tgBotChatid (W.setTgbotRuntime tgBotRuntime
                  (W.setTgBotToken tgBotToken (W.initDB s).2).2).2).1 with
          | some e => AdminEvent.stdout (e ++ "\n")
          | none => AdminEvent.loggerInfo "updateTgbotSetting tgBotChatid success")] ∧
      (updateTgbotSetting W tgBotToken tgBotChatid tgBotRuntime s).state =
        (W.setTgBotChatId tgBotChatid (W.setTgbotRuntime tgBotRuntime
          (W.setTgBotToken tgBotToken (W.initDB s).2).2).2).2) := by
  refine ⟨?_, ?_, ?_⟩
  · intro e h1
    simp [updateTgbotSetting, tgbotSettingToken, hdb, htoken, h1, println]
  · intro h1 e h2
    simp [updateTgbotSetting, tgbotSettingToken, tgbotSettingRuntime, hdb, htoken,
      hruntime, h1, h2, println]
  · intro h1 h2
    cases h3 : (W.setTgBotChatId tgBotChatid (W.setTgbotRuntime tgBotRuntime
        (W.setTgBotToken tgBotToken (W.initDB s).2).2).2).1 <;>
      simp [updateTgbotSetting, tgbotSettingToken, tgbotSettingRuntime,
        tgbotSettingChatId, hdb, htoken, hruntime, hchat, h1, h2, h3, println]

/-- C9 amended, at a run whose token update succeeds and whose runtime update fails: the
token stays written and the chat id is not attempted. -/
theorem C9_updateTgbotSetting_first_error_witness :
    (updateTgbotSetting (storeServices ["SetTgbotRuntime"]) "123:abc" "42" "@daily"
        freshStore).trace =
      [AdminEvent.initDB, AdminEvent.setTgBotToken "123:abc",
       AdminEvent.loggerInfo "updateTgbotSetting tgBotToken success",
       AdminEvent.setTgbotRuntime "@daily",
       AdminEvent.stdout ("database is locked" ++ "\n")] ∧
    (updateTgbotSetting (storeServices ["SetTgbotRuntime"]) "123:abc" "42" "@daily"
        freshStore).state.tgToken = "123:abc" :=
  have h := (C9_updateTgbotSetting_first_error (storeServices ["SetTgbotRuntime"])
    freshStore "123:abc" "42" "@daily" rfl (by decide) (by decide) (by decide)).2.1
    (by decide) "database is locked" (by decide)
  ⟨h.1, by rw [h.2]; decide⟩

/-- C10. The scheme computed by `getPanelURI` is "https://" iff both `KeyFile` and
`CertFile` are non-empty, and "http://" otherwise; the port text is empty iff
(`Port = 443` and TLS) or (`Port = 80` and not TLS), and otherwise is ":" followed by the
decimal numeral of `Port`.  With the database opened: when `Domain` is non-empty the
function reads the six settings, prints the one line scheme + `Domain` + port text +
`BasePath`, and returns (no interface or public-address lookup), whatever `Listen` is;
when `Domain` is empty and `Listen` is non-empty it does the same with `Listen`. -/
theorem C10_getPanelURI (W : Services σ) (s : σ) (hdb : (W.initDB s).1 = none) :
    (∀ KeyFile CertFile : String,
      (panelProto (panelTLS KeyFile CertFile) = "https://" ↔
        (KeyFile ≠ "" ∧ CertFile ≠ "")) ∧
      (panelProto (panelTLS KeyFile CertFile) = "http://" ↔
        ¬ (KeyFile ≠ "" ∧ CertFile ≠ ""))) ∧
    (∀ (Port : Int) (TLS : Bool),
      (panelPortText Port TLS = "" ↔
        ((Port = 443 ∧ TLS = true) ∨ (Port = 80 ∧ TLS = false))) ∧
      (panelPortText Port TLS ≠ "" → panelPortText Port TLS = ":" ++ toString Port)) ∧
    ((readPanelSettings W (W.initDB s).2).1.Domain ≠ "" →
      (getPanelURI W s).trace =
        AdminEvent.initDB :: panelReads ++
          [AdminEvent.stdout
            (panelProto (panelTLS (readPanelSettings W (W.initDB s).2).1.KeyFile
                (readPanelSettings W (W.initDB s).2).1.CertFile) ++
              (readPanelSettings W (W.initDB s).2).1.Domain ++
              panelPortText (readPanelSettings W (W.initDB s).2).1.Port
                (panelTLS (readPanelSettings W (W.initDB s).2).1.KeyFile
                  (readPanelSettings W (W.initDB s).2).1.CertFile) ++
              (readPanelSettings W (W.initDB s).2).1.BasePath ++ "\n")] ∧
      (getPanelURI W s).exit = AdminExit.returned) ∧
    ((readPanelSettings W (W.initDB s).2).1.Domain = "" →
      (readPanelSettings W (W.initDB s).2).1.Listen ≠ "" →
      (getPanelURI W s).trace =
        AdminEvent.initDB :: panelReads ++
          [AdminEvent.stdout
            (panelProto (panelTLS (readPanelSettings W (W.initDB s).2).1.KeyFile
                (readPanelSettings W (W.initDB s).2).1.CertFile) ++
              (readPanelSettings W (W.initDB s).2).1.Listen ++
              panelPortText (readPanelSettings W (W.initDB s).2).1.Port
                (panelTLS (readPanelSettings W (W.initDB s).2).1.KeyFile
                  (readPanelSettings W (W.initDB s).2).1.CertFile) ++
              (readPanelSettings W (W.initDB s).2).1.BasePath ++ "\n")] ∧
      (getPanelURI W s).exit = AdminExit.returned) := by
  refine ⟨?_, ?_, ?_, ?_⟩
  · intro KeyFile CertFile
    by_cases h : KeyFile ≠ "" ∧ CertFile ≠ ""
    · simp [panelProto, panelTLS, h]
    · simp only [panelProto, panelTLS, h, if_false]
      simp
  · intro Port TLS
    by_cases h : (Port = 443 ∧ TLS = true) ∨ (Port = 80 ∧ TLS = false)
    · simp [panelPortText, h]
    · simp only [panelPortText, h, if_false]
      exact ⟨⟨fun h0 => absurd h0 (colon_append_ne _), fun h0 => absurd h0 (by simp)⟩,
        fun _ => trivial⟩
  · intro hD
    have hpos := (utf8ByteSize_pos_iff _).2 hD
    simp [getPanelURI, hdb, hpos, println]
  · intro hD hL
    have hpos := (utf8ByteSize_pos_iff _).2 hL
    have hzero : ¬ (0 < (readPanelSettings W (W.initDB s).2).1.Domain.utf8ByteSize) := by
      rw [utf8ByteSize_pos_iff]; simp [hD]
    simp [getPanelURI, hdb, hpos, hzero, println]

/-- C10 at a panel with a domain, a listen address, a certificate and port 443: the one
line printed is the `https` URL of the domain, without port text. -/
theorem C10_getPanelURI_witness :
    (getPanelURI (storeServices []) tlsStore).trace =
      [AdminEvent.initDB, AdminEvent.getPort, AdminEvent.getBasePath, AdminEvent.getListen,
       AdminEvent.getWebDomain, AdminEvent.getKeyFile, AdminEvent.getCertFile,
       AdminEvent.stdout "https://panel.example.org/x/\n"] :=
  ((C10_getPanelURI (storeServices []) tlsStore rfl).2.2.1 (by decide)).1.trans
    (by decide)

end Admin

end XUI
